import Mathlib

/-!
Verification development for the payments-ingestion streaming processor.

Shallow embedding of the Python sources under `src/`:
timestamps (`datetime` with `isoformat` / `fromisoformat`), JSON values,
the transaction parser (`src/function_app/parsing/parser.py`,
`data_parser.py`, `models.py`), the per-message processing pipeline
(`src/function_app/run.py`), the Parquet row serializer
(`src/function_app/storage/parquet_serializer.py`), the upload retry loop
(`src/function_app/storage/blob_raw_event_store.py`), the rule processor
(`src/metric_engine/rule_processor.py`) and the broker consumers
(`src/function_app/consumer/event_hubs.py`, `kafka.py`).
-/

namespace PaymentsIngestion

/-! ## Timestamps

Mirror of Python `datetime.datetime`: a plain record of calendar fields plus
an optional fixed UTC offset in minutes (`none` models a naive datetime such
as `datetime.utcnow()` output). -/

structure Datetime where
  year : Nat
  month : Nat
  day : Nat
  hour : Nat
  minute : Nat
  second : Nat
  microsecond : Nat
  /-- `none` = naive; `some o` = `tzinfo` with a fixed offset of `o` minutes. -/
  offsetMinutes : Option Int
  deriving DecidableEq, Repr

def isLeapYear (y : Nat) : Bool :=
  (y % 4 == 0 && y % 100 != 0) || y % 400 == 0

def daysInMonth (y m : Nat) : Nat :=
  if m == 2 then (if isLeapYear y then 29 else 28)
  else if m == 4 || m == 6 || m == 9 || m == 11 then 30
  else 31

/-- The range checks the Python `datetime` constructor enforces (`MINYEAR = 1`,
`MAXYEAR = 9999`, field bounds, day-of-month bound, offset strictly below
24 hours). -/
def Datetime.valid (d : Datetime) : Bool :=
  1 ≤ d.year && d.year ≤ 9999 &&
  1 ≤ d.month && d.month ≤ 12 &&
  1 ≤ d.day && d.day ≤ daysInMonth d.year d.month &&
  d.hour ≤ 23 && d.minute ≤ 59 && d.second ≤ 59 && d.microsecond ≤ 999999 &&
  (match d.offsetMinutes with
   | none => true
   | some o => o.natAbs ≤ 1439)

/-! Zero-padded decimal rendering, as `datetime.isoformat` produces. -/

def pad2 (n : Nat) : List Char :=
  [Nat.digitChar (n / 10 % 10), Nat.digitChar (n % 10)]

def pad3 (n : Nat) : List Char :=
  [Nat.digitChar (n / 100 % 10), Nat.digitChar (n / 10 % 10), Nat.digitChar (n % 10)]

def pad4 (n : Nat) : List Char := pad2 (n / 100) ++ pad2 (n % 100)

def pad6 (n : Nat) : List Char := pad3 (n / 1000) ++ pad3 (n % 1000)

/-- The `±HH:MM` suffix `datetime.isoformat` emits for an aware datetime. -/
def formatOffset : Option Int → List Char
  | none => []
  | some o =>
    let a := o.natAbs
    (if o < 0 then '-' else '+') :: (pad2 (a / 60) ++ ':' :: pad2 (a % 60))

/-- Characters of `d.isoformat(sep)`; Python always emits seconds and emits
the 6-digit fraction exactly when `microsecond ≠ 0` (timespec `auto`). -/
def Datetime.isoChars (d : Datetime) (sep : Char) : List Char :=
  pad4 d.year ++ '-' :: pad2 d.month ++ '-' :: pad2 d.day ++ sep ::
  pad2 d.hour ++ ':' :: pad2 d.minute ++ ':' :: pad2 d.second ++
  (if d.microsecond == 0 then [] else '.' :: pad6 d.microsecond) ++
  formatOffset d.offsetMinutes

/-- `datetime.isoformat()` (separator `T`). -/
def Datetime.isoformat (d : Datetime) : String := ⟨d.isoChars 'T'⟩

/-- `str(datetime)`, which is `isoformat(sep=' ')`. -/
def Datetime.pyStr (d : Datetime) : String := ⟨d.isoChars ' '⟩

/-! Parsing, mirroring pre-3.11 `datetime.fromisoformat`: the grammar
`YYYY-MM-DD[<any sep char>HH:MM[:SS[.fff[fff]]][±HH:MM]]`, with the
constructor's range validation applied to the result. -/

def readDigit (c : Char) : Option Nat :=
  if 48 ≤ c.toNat && c.toNat ≤ 57 then some (c.toNat - 48) else none

def read2 : List Char → Option (Nat × List Char)
  | c1 :: c2 :: rest =>
    match readDigit c1, readDigit c2 with
    | some d1, some d2 => some (10 * d1 + d2, rest)
    | _, _ => none
  | _ => none

def read3 : List Char → Option (Nat × List Char)
  | c1 :: c2 :: c3 :: rest =>
    match readDigit c1, readDigit c2, readDigit c3 with
    | some d1, some d2, some d3 => some (100 * d1 + 10 * d2 + d3, rest)
    | _, _, _ => none
  | _ => none

def read4 (cs : List Char) : Option (Nat × List Char) :=
  match read2 cs with
  | some (h, rest) =>
    match read2 rest with
    | some (l, rest') => some (100 * h + l, rest')
    | none => none
  | none => none

def expectChar (c : Char) : List Char → Option (List Char)
  | x :: rest => if x = c then some rest else none
  | [] => none

/-- Parse the optional `±HH:MM` offset suffix; the whole input must be
consumed.  The 24-hour bound is the `timezone` constructor's check. -/
def parseOffset : List Char → Option (Option Int)
  | [] => some none
  | c :: rest =>
    if c = '+' || c = '-' then
      match read2 rest with
      | some (h, rest1) =>
        match expectChar ':' rest1 with
        | some rest2 =>
          match read2 rest2 with
          | some (m, []) =>
            let total : Int := 60 * h + m
            if total ≤ 1439 then some (some (if c = '-' then -total else total))
            else none
          | _ => none
        | none => none
      | none => none
    else none

/-- Parse `[.fff[fff]]±offset` after the seconds: a fraction of exactly three
or six digits, then the offset. -/
def parseFracOffset (cs : List Char) : Option (Nat × Option Int) :=
  if cs.head? = some '.' then
    match read3 cs.tail with
    | some (v1, rest1) =>
      (match read3 rest1 with
       | some (v2, rest2) => (parseOffset rest2).map fun off => (1000 * v1 + v2, off)
       | none => (parseOffset rest1).map fun off => (1000 * v1, off))
    | none => none
  else
    (parseOffset cs).map fun off => (0, off)

/-- Parse `HH:MM[:SS[.fff[fff]]][±HH:MM]` (everything after the separator). -/
def parseTimePart (cs : List Char) : Option (Nat × Nat × Nat × Nat × Option Int) :=
  match read2 cs with
  | some (h, r1) =>
    match expectChar ':' r1 with
    | some r2 =>
      match read2 r2 with
      | some (mi, r3) =>
        if r3.head? = some ':' then
          match read2 r3.tail with
          | some (s, r5) => (parseFracOffset r5).map fun p => (h, mi, s, p.1, p.2)
          | none => none
        else
          (parseOffset r3).map fun off => (h, mi, 0, 0, off)
      | none => none
    | none => none
  | none => none

/-- The range validation the `datetime` constructor performs on the parsed
fields (`ValueError` modelled as `none`). -/
def validated (d : Datetime) : Option Datetime :=
  if d.valid then some d else none

def parseIsoChars (cs : List Char) : Option Datetime :=
  match read4 cs with
  | some (y, r1) =>
    match expectChar '-' r1 with
    | some r2 =>
      match read2 r2 with
      | some (mo, r3) =>
        match expectChar '-' r3 with
        | some r4 =>
          match read2 r4 with
          | some (dy, r5) =>
            match r5 with
            | [] => validated ⟨y, mo, dy, 0, 0, 0, 0, none⟩
            | _ :: r6 =>
              -- pre-3.11 fromisoformat accepts any single separator character
              match parseTimePart r6 with
              | some (h, mi, s, us, off) => validated ⟨y, mo, dy, h, mi, s, us, off⟩
              | none => none
          | none => none
        | none => none
      | none => none
    | none => none
  | none => none

/-- `datetime.fromisoformat`, returning `none` where Python raises
`ValueError`. -/
def fromisoformat (s : String) : Option Datetime := parseIsoChars s.toList

/-- `s.replace('Z', '+00:00')` (every occurrence). -/
def replaceZ (s : String) : String :=
  ⟨s.toList.flatMap fun c => if c = 'Z' then ['+', '0', '0', ':', '0', '0'] else [c]⟩

/-- `datetime.fromisoformat(s.replace('Z', '+00:00'))`, the idiom used by
the parser and the serializer. -/
def pyParseTimestamp (s : String) : Option Datetime := fromisoformat (replaceZ s)

/-! ### The isoformat / fromisoformat round trip -/

theorem readDigit_digitChar : ∀ d : Nat, d < 10 → readDigit (Nat.digitChar d) = some d := by
  decide

theorem read2_pad2 (n : Nat) (rest : List Char) (h : n ≤ 99) :
    read2 (pad2 n ++ rest) = some (n, rest) := by
  have h1 : readDigit (Nat.digitChar (n / 10 % 10)) = some (n / 10 % 10) :=
    readDigit_digitChar _ (Nat.mod_lt _ (by omega))
  have h2 : readDigit (Nat.digitChar (n % 10)) = some (n % 10) :=
    readDigit_digitChar _ (Nat.mod_lt _ (by omega))
  simp only [pad2, List.cons_append, List.nil_append, read2, h1, h2]
  have : 10 * (n / 10 % 10) + n % 10 = n := by omega
  rw [this]

theorem read3_pad3 (n : Nat) (rest : List Char) (h : n ≤ 999) :
    read3 (pad3 n ++ rest) = some (n, rest) := by
  have h1 : readDigit (Nat.digitChar (n / 100 % 10)) = some (n / 100 % 10) :=
    readDigit_digitChar _ (Nat.mod_lt _ (by omega))
  have h2 : readDigit (Nat.digitChar (n / 10 % 10)) = some (n / 10 % 10) :=
    readDigit_digitChar _ (Nat.mod_lt _ (by omega))
  have h3 : readDigit (Nat.digitChar (n % 10)) = some (n % 10) :=
    readDigit_digitChar _ (Nat.mod_lt _ (by omega))
  simp only [pad3, List.cons_append, List.nil_append, read3, h1, h2, h3]
  have : 100 * (n / 100 % 10) + 10 * (n / 10 % 10) + n % 10 = n := by omega
  rw [this]

theorem read4_pad4 (n : Nat) (rest : List Char) (h : n ≤ 9999) :
    read4 (pad4 n ++ rest) = some (n, rest) := by
  simp only [pad4, List.append_assoc, read4,
    read2_pad2 (n / 100) _ (by omega), read2_pad2 (n % 100) _ (by omega)]
  have h2 : 100 * (n / 100) + n % 100 = n := by omega
  rw [h2]

theorem expectChar_cons (c : Char) (rest : List Char) :
    expectChar c (c :: rest) = some rest := by
  simp [expectChar]

theorem read2_pad2_nil (n : Nat) (h : n ≤ 99) : read2 (pad2 n) = some (n, []) := by
  have := read2_pad2 n [] h
  simpa using this

/-- Shorthand for the offset bound of a valid datetime. -/
def offBound : Option Int → Prop
  | none => True
  | some x => x.natAbs ≤ 1439

instance (o : Option Int) : Decidable (offBound o) := by
  cases o <;> simp [offBound] <;> infer_instance

theorem parseOffset_formatOffset (o : Option Int) (h : offBound o) :
    parseOffset (formatOffset o) = some o := by
  match o with
  | none => rfl
  | some x =>
    simp only [offBound] at h
    have hq : x.natAbs / 60 ≤ 99 := by omega
    have hr : x.natAbs % 60 ≤ 99 := by omega
    have htot : (60 * ((x.natAbs / 60 : Nat) : Int) + ((x.natAbs % 60 : Nat) : Int)) =
        (x.natAbs : Int) := by omega
    by_cases hneg : x < 0
    · simp only [formatOffset, if_pos hneg, parseOffset,
        read2_pad2 (x.natAbs / 60) _ hq, expectChar_cons, read2_pad2_nil _ hr,
        htot, if_pos (by omega : ((x.natAbs : Nat) : Int) ≤ 1439)]
      have hx : -((x.natAbs : Nat) : Int) = x := by omega
      rw [if_pos (by decide : (decide ('-' = '+') || decide True) = true),
        if_pos trivial, hx]
    · simp only [formatOffset, if_neg hneg, parseOffset,
        read2_pad2 (x.natAbs / 60) _ hq, expectChar_cons, read2_pad2_nil _ hr,
        htot, if_pos (by omega : ((x.natAbs : Nat) : Int) ≤ 1439)]
      have hx : ((x.natAbs : Nat) : Int) = x := by omega
      rw [if_pos (by decide : (decide True || decide ('+' = '-')) = true),
        if_neg (by decide : ¬('+' : Char) = '-'), hx]

theorem formatOffset_head_ne (x : Int) (c : Char) (hc : c ≠ '+' ∧ c ≠ '-') :
    (formatOffset (some x)).head? ≠ some c := by
  simp only [formatOffset]
  by_cases hx : x < 0 <;> simp [hx, hc.1.symm, hc.2.symm]

theorem parseFracOffset_spec (us : Nat) (o : Option Int) (hus : us ≤ 999999)
    (ho : offBound o) :
    parseFracOffset ((if us == 0 then [] else '.' :: pad6 us) ++ formatOffset o) =
      some (us, o) := by
  by_cases h0 : us = 0
  · subst h0
    simp only [beq_self_eq_true, if_true, List.nil_append]
    cases o with
    | none => rfl
    | some x =>
      unfold parseFracOffset
      rw [if_neg (formatOffset_head_ne x '.' (by decide))]
      rw [parseOffset_formatOffset _ ho]
      rfl
  · rw [if_neg (by simpa using h0)]
    have harith : 1000 * (us / 1000) + us % 1000 = us := by omega
    simp only [parseFracOffset, pad6, List.cons_append, List.head?_cons,
      List.tail_cons, List.append_assoc,
      read3_pad3 (us / 1000) _ (by omega), read3_pad3 (us % 1000) _ (by omega),
      parseOffset_formatOffset o ho, Option.map_some, if_pos rfl, harith]
    simp

theorem parseTimePart_spec (h mi s us : Nat) (o : Option Int)
    (hh : h ≤ 99) (hmi : mi ≤ 99) (hs : s ≤ 99) (hus : us ≤ 999999)
    (ho : offBound o) :
    parseTimePart (pad2 h ++ ':' :: (pad2 mi ++ ':' :: (pad2 s ++
      ((if us == 0 then [] else '.' :: pad6 us) ++ formatOffset o)))) =
      some (h, mi, s, us, o) := by
  simp only [parseTimePart, List.append_assoc, List.cons_append,
    read2_pad2 h _ hh, expectChar_cons, read2_pad2 mi _ hmi,
    List.head?_cons, if_pos rfl, List.tail_cons, read2_pad2 s _ hs,
    parseFracOffset_spec us o hus ho, Option.map_some]
  simp

/-- The range checks of `Datetime.valid`, spelled out. -/
theorem valid_iff (d : Datetime) : d.valid = true ↔
    (1 ≤ d.year ∧ d.year ≤ 9999 ∧ 1 ≤ d.month ∧ d.month ≤ 12 ∧ 1 ≤ d.day ∧
     d.day ≤ daysInMonth d.year d.month ∧ d.hour ≤ 23 ∧ d.minute ≤ 59 ∧
     d.second ≤ 59 ∧ d.microsecond ≤ 999999 ∧ offBound d.offsetMinutes) := by
  obtain ⟨y, mo, dy, h, mi, s, us, off⟩ := d
  cases off <;> simp [Datetime.valid, offBound, and_assoc]

theorem daysInMonth_le (y m : Nat) : daysInMonth y m ≤ 31 := by
  unfold daysInMonth
  split_ifs <;> omega

theorem parseIsoChars_isoChars (d : Datetime) (sep : Char) (hv : d.valid = true) :
    parseIsoChars (d.isoChars sep) = some d := by
  obtain ⟨hy1, hy2, hmo1, hmo2, hdy1, hdy2, hh, hmi, hs, hus, hoff⟩ :=
    (valid_iff d).mp hv
  have hd31 := daysInMonth_le d.year d.month
  simp only [Datetime.isoChars, parseIsoChars, List.append_assoc, List.cons_append,
    read4_pad4 d.year _ hy2,
    expectChar_cons, read2_pad2 d.month _ (by omega), read2_pad2 d.day _ (by omega),
    parseTimePart_spec d.hour d.minute d.second d.microsecond d.offsetMinutes
      (by omega) (by omega) (by omega) hus hoff]
  exact if_pos hv

theorem fromisoformat_isoChars (d : Datetime) (sep : Char) (hv : d.valid = true) :
    fromisoformat ⟨d.isoChars sep⟩ = some d := by
  unfold fromisoformat
  have : (String.mk (d.isoChars sep)).toList = d.isoChars sep := rfl
  rw [this, parseIsoChars_isoChars d sep hv]

/-! No `Z` occurs in `isoformat` output, so the `replace('Z', '+00:00')`
normalization leaves it unchanged. -/

theorem digitChar_ne_Z : ∀ n : Nat, n < 10 → Nat.digitChar n ≠ 'Z' := by decide

theorem noZ_pad2 (n : Nat) : 'Z' ∉ pad2 n := by
  have h1 := digitChar_ne_Z (n / 10 % 10) (Nat.mod_lt _ (by omega))
  have h2 := digitChar_ne_Z (n % 10) (Nat.mod_lt _ (by omega))
  simp only [pad2, List.mem_cons, List.not_mem_nil, or_false]
  exact fun h => h.elim (fun h => h1 h.symm) (fun h => h2 h.symm)

theorem noZ_pad3 (n : Nat) : 'Z' ∉ pad3 n := by
  have h1 := digitChar_ne_Z (n / 100 % 10) (Nat.mod_lt _ (by omega))
  have h2 := digitChar_ne_Z (n / 10 % 10) (Nat.mod_lt _ (by omega))
  have h3 := digitChar_ne_Z (n % 10) (Nat.mod_lt _ (by omega))
  simp only [pad3, List.mem_cons, List.not_mem_nil, or_false]
  exact fun h => h.elim (fun h => h1 h.symm)
    (fun h => h.elim (fun h => h2 h.symm) (fun h => h3 h.symm))

theorem noZ_pad4 (n : Nat) : 'Z' ∉ pad4 n := by
  simp only [pad4, List.mem_append]
  exact fun h => h.elim (noZ_pad2 _) (noZ_pad2 _)

theorem noZ_pad6 (n : Nat) : 'Z' ∉ pad6 n := by
  simp only [pad6, List.mem_append]
  exact fun h => h.elim (noZ_pad3 _) (noZ_pad3 _)

theorem noZ_formatOffset (o : Option Int) : 'Z' ∉ formatOffset o := by
  cases o with
  | none => simp [formatOffset]
  | some x =>
    intro h
    simp only [formatOffset, List.mem_cons, List.mem_append] at h
    rcases h with h | h | h | h
    · by_cases hx : x < 0 <;> simp [hx] at h
    · exact noZ_pad2 _ h
    · simp at h
    · exact noZ_pad2 _ h

theorem noZ_isoChars (d : Datetime) (sep : Char) (hsep : sep ≠ 'Z') :
    'Z' ∉ d.isoChars sep := by
  have hsep' : ¬('Z' = sep) := fun h => hsep h.symm
  by_cases h0 : (d.microsecond == 0) = true <;>
    simp [Datetime.isoChars, h0, List.mem_append, List.mem_cons,
      noZ_pad4 d.year, noZ_pad2 d.month, noZ_pad2 d.day, noZ_pad2 d.hour,
      noZ_pad2 d.minute, noZ_pad2 d.second, noZ_pad6 d.microsecond,
      noZ_formatOffset d.offsetMinutes, hsep']

theorem replaceZChars_of_noZ (cs : List Char) (h : 'Z' ∉ cs) :
    (cs.flatMap fun c => if c = 'Z' then ['+', '0', '0', ':', '0', '0'] else [c]) =
      cs := by
  induction cs with
  | nil => rfl
  | cons c cs ih =>
    simp only [List.mem_cons, not_or] at h
    have hc : ¬(c = 'Z') := fun hh => h.1 hh.symm
    simp only [List.flatMap_cons, if_neg hc, ih h.2, List.singleton_append]

theorem replaceZ_of_noZ (cs : List Char) (h : 'Z' ∉ cs) : replaceZ ⟨cs⟩ = ⟨cs⟩ := by
  unfold replaceZ
  have hl : (String.mk cs).toList = cs := rfl
  rw [hl, replaceZChars_of_noZ cs h]

/-- The central round trip: parsing the `isoformat` rendering of a valid
datetime (through the `Z` normalization) recovers it exactly. -/
theorem pyParseTimestamp_isoformat (d : Datetime) (hv : d.valid = true) :
    pyParseTimestamp d.isoformat = some d := by
  unfold pyParseTimestamp Datetime.isoformat
  rw [replaceZ_of_noZ _ (noZ_isoChars d 'T' (by decide))]
  exact fromisoformat_isoChars d 'T' hv

/-- `fromisoformat` only returns datetimes that pass the constructor's
range checks. -/
theorem validated_some (d' d : Datetime) (h : validated d' = some d) :
    d.valid = true := by
  unfold validated at h
  split at h
  · cases h; assumption
  · cases h

theorem fromisoformat_valid (s : String) (d : Datetime)
    (h : fromisoformat s = some d) : d.valid = true := by
  unfold fromisoformat parseIsoChars at h
  repeat' split at h
  all_goals first
    | exact absurd h (by simp)
    | exact validated_some _ _ h

theorem pyParseTimestamp_valid (s : String) (d : Datetime)
    (h : pyParseTimestamp s = some d) : d.valid = true :=
  fromisoformat_valid _ _ h

/-! ## JSON values

Python values as produced by `json.loads` plus, after archive
deserialization, `datetime` objects (`.dt`).  Object fields are an
association list with distinct keys (Python `dict`). -/

inductive Json where
  | str (s : String)
  | num (q : ℚ)
  | bool (b : Bool)
  | null
  | arr (xs : List Json)
  | obj (fields : List (String × Json))
  | dt (d : Datetime)

/-- `dict[key]` lookup (first binding; Python dict keys are unique). -/
def jlookup (fields : List (String × Json)) (k : String) : Option Json :=
  (fields.find? fun p => p.1 == k).map (·.2)

/-- Python truthiness of a JSON-ish value (`bool(v)`). -/
def Json.truthy : Json → Bool
  | .str s => s ≠ ""
  | .num q => q ≠ 0
  | .bool b => b
  | .null => false
  | .arr xs => ¬xs.isEmpty
  | .obj fs => ¬fs.isEmpty
  | .dt _ => true

/-! ## Parsing data model — `src/function_app/parsing/models.py` -/

inductive TransactionStatus where
  | success | declined | timeout | error
  deriving DecidableEq, Repr

/-- `TransactionStatus(value).value`. -/
def TransactionStatus.value : TransactionStatus → String
  | .success => "success"
  | .declined => "declined"
  | .timeout => "timeout"
  | .error => "error"

/-- `str.lower()` (ASCII range, which is all this code base feeds it). -/
def pyLower (s : String) : String :=
  ⟨s.toList.map fun c =>
    if 'A' ≤ c ∧ c ≤ 'Z' then Char.ofNat (c.toNat + 32) else c⟩

/-- `TransactionStatus(s)` as used in the parser: the `try/except ValueError`
around the enum constructor falls back to `ERROR`, and the plain constructor
is only reached on the four member strings. -/
def statusOfString (s : String) : Option TransactionStatus :=
  if s == "success" then some .success
  else if s == "declined" then some .declined
  else if s == "timeout" then some .timeout
  else if s == "error" then some .error
  else none

structure ParsedTransaction where
  transaction_id : String
  correlation_id : String
  timestamp : Datetime
  transaction_type : String
  channel : String
  amount : ℚ
  currency : String
  merchant_id : String
  customer_id : String
  status : TransactionStatus
  metadata : List (String × Json)

/-- Rendering of an arbitrary Python value via `str(...)`.  Only the value on
string inputs (`str(s) = s`) and on datetimes (`isoformat(sep=' ')`) is
load-bearing anywhere in this development; the remaining renderings are
simplified stand-ins for Python `repr`-style output. -/
def Json.pyStr : Json → String
  | .str s => s
  | .num q => toString q
  | .bool b => if b then "True" else "False"
  | .null => "None"
  | .arr _ => "[...]"
  | .obj _ => "{...}"
  | .dt d => d.pyStr

/-- `ParsedTransaction.to_dict()`: the dictionary representation, with the
timestamp rendered through `isoformat()` and the status through `.value`. -/
def ParsedTransaction.toDict (tx : ParsedTransaction) : Json :=
  .obj [
    ("transaction_id", .str tx.transaction_id),
    ("correlation_id", .str tx.correlation_id),
    ("timestamp", .str tx.timestamp.isoformat),
    ("transaction_type", .str tx.transaction_type),
    ("channel", .str tx.channel),
    ("amount", .num tx.amount),
    ("currency", .str tx.currency),
    ("merchant_id", .str tx.merchant_id),
    ("customer_id", .str tx.customer_id),
    ("status", .str tx.status.value),
    ("metadata", .obj tx.metadata)]

structure ValidationError where
  field : String
  constraint : String
  expected : String
  actual : String
  message : String

structure ParseResult where
  success : Bool
  transaction : Option ParsedTransaction
  error : Option ValidationError

/-- `ParseResult.success_result(tx)`. -/
def ParseResult.successResult (tx : ParsedTransaction) : ParseResult :=
  ⟨true, some tx, none⟩

/-- `ParseResult.error_result(err)`. -/
def ParseResult.errorResult (err : ValidationError) : ParseResult :=
  ⟨false, none, some err⟩

/-! ## Schema validation — `TransactionParser._validate_against_schema` -/

def requiredFields : List String :=
  ["transaction_id", "correlation_id", "timestamp", "transaction_type", "channel",
   "amount", "currency", "merchant_id", "customer_id", "status"]

/-- Python substring containment, for `key in someString`. -/
def strContains (s key : String) : Bool :=
  s.toList.tails.any fun t => key.toList.isPrefixOf t

def Json.isStr : Json → Bool
  | .str _ => true
  | _ => false

/-- `isinstance(v, (int, float))`; note Python `bool` is a subclass of
`int`, so booleans count as numbers. -/
def Json.isNumLike : Json → Bool
  | .num _ => true
  | .bool _ => true
  | _ => false

/-- `float(v)` on a value that `isinstance(v, (int, float))` accepts. -/
def pyFloatNum : Json → ℚ
  | .num q => q
  | .bool b => if b then 1 else 0
  | _ => 0

def Json.asStr : Json → String
  | .str s => s
  | _ => ""

def requiredError (f : String) : ValidationError :=
  ⟨f, "required", "field must be present", "field missing",
   "Required field is missing"⟩

def typeError (f expected actual : String) : ValidationError :=
  ⟨f, "type", expected, actual, "wrong type"⟩

def amountRangeError : ValidationError :=
  ⟨"amount", "range", "amount > 0", "non-positive",
   "Field must be greater than 0"⟩

def currencyFormatError : ValidationError :=
  ⟨"currency", "format", "3-character currency code (ISO 4217)", "other",
   "Field must be a 3-character currency code"⟩

def statusValueError : ValidationError :=
  ⟨"status", "allowed_values", "one of: success, declined, timeout, error",
   "other", "Field must be one of: success, declined, timeout, error"⟩

/-- A `TypeError` escaping `_validate_against_schema` is caught by
`parse_and_validate`'s catch-all and surfaced with this error. -/
def unexpectedError : ValidationError :=
  ⟨"parser", "unexpected_error", "successful parsing", "error",
   "Unexpected error during parsing"⟩

/-- The validation chain on a JSON object: the required-field loop followed
by the ordered `field_validations` loop with its inline constraints,
returning the first failure (fail-fast). -/
def validateObj (fs : List (String × Json)) : Option ValidationError :=
  match requiredFields.find? (fun f => !(fs.any fun p => p.1 == f)) with
  | some f => some (requiredError f)
  | none =>
    let val := fun f => ((jlookup fs f).getD .null)
    if ¬(val "transaction_id").isStr then some (typeError "transaction_id" "str" "other") else
    if ¬(val "correlation_id").isStr then some (typeError "correlation_id" "str" "other") else
    if ¬(val "amount").isNumLike then some (typeError "amount" "number" "other") else
    if pyFloatNum (val "amount") ≤ 0 then some amountRangeError else
    if ¬(val "currency").isStr then some (typeError "currency" "str" "other") else
    if (val "currency").asStr.length ≠ 3 then some currencyFormatError else
    if ¬(val "merchant_id").isStr then some (typeError "merchant_id" "str" "other") else
    if ¬(val "customer_id").isStr then some (typeError "customer_id" "str" "other") else
    if ¬(val "status").isStr then some (typeError "status" "str" "other") else
    if (statusOfString (pyLower (val "status").asStr)).isNone then some statusValueError
    else none

/-- `_validate_against_schema` on an arbitrary decoded value.  On non-dict
values, Python's `field in data` / `data[field]` either report a missing
required field or raise `TypeError`, which the caller's catch-all converts
to the `unexpected_error` result; both outcomes are folded in here. -/
def validateAgainstSchema (data : Json) : Option ValidationError :=
  match data with
  | .obj fs => validateObj fs
  | .arr xs =>
    (match requiredFields.find?
        (fun f => !(xs.any fun v => match v with | .str s => s == f | _ => false)) with
     | some f => some (requiredError f)
     | none => some unexpectedError)
  | .str s =>
    (match requiredFields.find? (fun f => !(strContains s f)) with
     | some f => some (requiredError f)
     | none => some unexpectedError)
  | _ => some unexpectedError

/-! ## Transaction creation — `TransactionParser._create_transaction` -/

/-- `_create_transaction(data)`; `none` models an exception escaping to the
caller (missing key, non-numeric amount, `.lower()` on a non-string status,
`data.get` on a non-dict).  String renderings of `float()`-parseable amount
strings are not modelled: validation has already rejected them. -/
def createTimestamp (now : Datetime) (fs : List (String × Json)) : Datetime :=
  match jlookup fs "timestamp" with
  | some (.str s) =>
    (match pyParseTimestamp s with
     | some dt => dt
     | none => now)              -- except (ValueError, AttributeError): utcnow()
  | some (.dt d) => d            -- isinstance(timestamp, datetime): kept
  | _ => now                     -- absent or any other type: utcnow()

def createTransaction (now : Datetime) (data : Json) : Option ParsedTransaction :=
  match data with
  | .obj fs =>
    let timestamp := createTimestamp now fs
    (match (match jlookup fs "status" with
            | none => some "error"
            | some (.str s) => some (pyLower s)
            | some _ => none) with
     | none => none
     | some statusStr =>
       let status := (statusOfString statusStr).getD .error
       let metadata :=
         match jlookup fs "metadata" with
         | some (.obj m) => m
         | _ => []
       match jlookup fs "amount" with
       | some v =>
         if v.isNumLike then
           (match jlookup fs "transaction_id", jlookup fs "correlation_id",
                  jlookup fs "currency", jlookup fs "merchant_id",
                  jlookup fs "customer_id" with
            | some tid, some cid, some cur, some mid, some cuid =>
              some {
                transaction_id := tid.pyStr
                correlation_id := cid.pyStr
                timestamp := timestamp
                transaction_type := ((jlookup fs "transaction_type").getD (.str "payment")).pyStr
                channel := ((jlookup fs "channel").getD (.str "unknown")).pyStr
                amount := pyFloatNum v
                currency := cur.pyStr
                merchant_id := mid.pyStr
                customer_id := cuid.pyStr
                status := status
                metadata := metadata }
            | _, _, _, _, _ => none)
         else none
       | none => none)
  | _ => none

/-! ## `TransactionParser.parse_and_validate` and the `DataParser` wrapper -/

def jsonFormatError : ValidationError :=
  ⟨"body", "json_format", "valid JSON", "malformed JSON",
   "Failed to parse JSON"⟩

def creationError : ValidationError :=
  ⟨"transaction", "creation", "valid transaction object", "error",
   "Failed to create transaction"⟩

/-- `TransactionParser.parse_and_validate(message_body)`.  The input models
the outcome of `json.loads(message_body)` in step 1: `none` when the body is
not decodable JSON. -/
def parseAndValidate (now : Datetime) (input : Option Json) : ParseResult :=
  match input with
  | none => .errorResult jsonFormatError
  | some data =>
    match validateAgainstSchema data with
    | some err => .errorResult err
    | none =>
      match createTransaction now data with
      | none => .errorResult creationError
      | some tx => .successResult tx

structure ParserMetrics where
  totalProcessed : Nat
  successful : Nat
  failed : Nat
  failedByType : List (String × Nat)

/-- `metrics["failed_by_type"][k] = metrics["failed_by_type"].get(k, 0) + 1`. -/
def bumpCount (m : List (String × Nat)) (k : String) : List (String × Nat) :=
  if m.any fun p => p.1 == k then
    m.map fun p => if p.1 == k then (p.1, p.2 + 1) else p
  else m ++ [(k, 1)]

/-- `DataParser.parse_and_validate`: delegates to the `TransactionParser`
and tracks metrics.  (Schema loading is a no-op without a schema manager,
and the catch-all except branch is unreachable since the embedded parser is
total; dead-letter routing has no effect on the returned result.) -/
def dataParserParseAndValidate (now : Datetime) (input : Option Json)
    (m : ParserMetrics) : ParseResult × ParserMetrics :=
  let m1 := { m with totalProcessed := m.totalProcessed + 1 }
  let result := parseAndValidate now input
  if result.success then
    (result, { m1 with successful := m1.successful + 1 })
  else
    let m2 := { m1 with failed := m1.failed + 1 }
    match result.error with
    | some err =>
      (result, { m2 with failedByType := bumpCount m2.failedByType err.constraint })
    | none => (result, m2)

/-! ## 5-minute windows — `run.py` lines 269-275 and 362-368 -/

/-- `timestamp.replace(minute=m, second=s, microsecond=us)`: Python
re-validates the resulting datetime and raises `ValueError` when a field is
out of range. -/
def Datetime.replaceTime (d : Datetime) (m s us : Nat) : Option Datetime :=
  validated { d with minute := m, second := s, microsecond := us }

/-- `window_start.replace(minute=m)`. -/
def Datetime.replaceMinute (d : Datetime) (m : Nat) : Option Datetime :=
  validated { d with minute := m }

/-- The window computation shared by `_update_payment_metrics_5m` and
`_update_aggregate_histograms`:

    window_start = ts.replace(minute=(ts.minute // 5) * 5, second=0, microsecond=0)
    window_end   = window_start.replace(minute=window_start.minute + 5)

`none` models the `ValueError` that `replace` raises when the new minute is
out of range (it is 60 whenever the aligned minute is 55); the helper's
catch-all turns it into a `False` return. -/
def computeWindow5m (ts : Datetime) : Option (Datetime × Datetime) :=
  match ts.replaceTime (ts.minute / 5 * 5) 0 0 with
  | some ws =>
    (match ws.replaceMinute (ws.minute + 5) with
     | some we => some (ws, we)
     | none => none)
  | none => none

/-! ## Metric extraction — `run.py` `_extract_metrics` -/

structure MetricDict where
  metric_type : String
  metric_value : ℚ
  metric_data : List (String × String)

/-- `_extract_metrics(transaction)`: the static three-metric output. -/
def extractMetrics (tx : ParsedTransaction) : List MetricDict :=
  [⟨"transaction_amount", tx.amount,
     [("currency", tx.currency), ("status", tx.status.value)]⟩,
   ⟨"channel_usage", 1,
     [("channel", tx.channel), ("transaction_type", tx.transaction_type)]⟩,
   ⟨"transaction_status", 1,
     [("status", tx.status.value), ("transaction_type", tx.transaction_type)]⟩]

/-! ## Database effects

Each helper in `run.py` takes its own pooled connection, executes its
statements and commits once; an exception anywhere in a helper is caught
there, so a failed helper commits nothing.  The store is modelled as the
log of committed transactions, each a list of the statements it executed. -/

structure DynamicMetricRow where
  transaction_id : String
  correlation_id : String
  metric_type : String
  metric_value : ℚ
  metric_data : List (String × String)
  created_at : Datetime

structure AggUpsertRow where
  window_start : Datetime
  window_end : Datetime
  payment_method : Json
  currency : String
  payment_status : String
  amount : ℚ
  created_at : Datetime
  updated_at : Datetime

structure HistUpsertRow where
  metric_type : String
  event_type : String
  window_start : Datetime
  window_end : Datetime
  created_at : Datetime
  updated_at : Datetime

structure FailedItemRow where
  transaction_id : Json
  correlation_id : String
  error_type : String
  error_message : String
  raw_payload : Json
  failed_at : Datetime

inductive WriteOp where
  | insertDynamicMetric (row : DynamicMetricRow)
  | upsertPaymentMetrics5m (row : AggUpsertRow)
  | upsertHistogram (row : HistUpsertRow)
  | insertFailedItem (row : FailedItemRow)

structure DBState where
  /-- One entry per committed database transaction, in commit order. -/
  committed : List (List WriteOp)

def WriteOp.isDynInsert : WriteOp → Bool
  | .insertDynamicMetric _ => true
  | _ => false

def WriteOp.isAggUpsert : WriteOp → Bool
  | .upsertPaymentMetrics5m _ => true
  | _ => false

def WriteOp.isHistUpsert : WriteOp → Bool
  | .upsertHistogram _ => true
  | _ => false

def WriteOp.failedItemRow : WriteOp → Option FailedItemRow
  | .insertFailedItem r => some r
  | _ => none

/-- The rows of the `failed_items` table (derived from the commit log). -/
def DBState.failedItems (db : DBState) : List FailedItemRow :=
  db.committed.flatten.filterMap WriteOp.failedItemRow

/-- Fault model for one function invocation: a flag per sink saying whether
its statements/commit raise, plus the invocation's `utcnow()` and generated
correlation id. -/
structure PipelineEnv where
  now : Datetime
  correlationId : String
  dynFail : Bool
  aggFail : Bool
  histFail : Bool
  dlqFail : Bool

/-- `_store_dynamic_metrics`: one `INSERT` per metric on one connection,
then a single commit; any exception is caught and yields `False` with
nothing committed. -/
def storeDynamicMetrics (env : PipelineEnv) (tx : ParsedTransaction)
    (metrics : List MetricDict) (db : DBState) : Bool × DBState :=
  if env.dynFail then (false, db)
  else
    (true, ⟨db.committed ++
      [metrics.map fun m => WriteOp.insertDynamicMetric
        ⟨tx.transaction_id, env.correlationId, m.metric_type, m.metric_value,
         m.metric_data, env.now⟩]⟩)

/-- `_update_payment_metrics_5m`: computes the 5-minute window, then runs the
single UPSERT and commits; the window `ValueError` or a DB error is caught
and yields `False` with nothing committed. -/
def updatePaymentMetrics5m (env : PipelineEnv) (tx : ParsedTransaction)
    (db : DBState) : Bool × DBState :=
  match computeWindow5m tx.timestamp with
  | none => (false, db)
  | some (ws, we) =>
    if env.aggFail then (false, db)
    else
      (true, ⟨db.committed ++
        [[WriteOp.upsertPaymentMetrics5m
          ⟨ws, we, (jlookup tx.metadata "payment_method").getD (.str "unknown"),
           tx.currency, tx.status.value, tx.amount, env.now, env.now⟩]]⟩)

/-- `_update_aggregate_histograms`: the same window computation, one UPSERT
per metric, one commit. -/
def updateAggregateHistograms (env : PipelineEnv) (tx : ParsedTransaction)
    (metrics : List MetricDict) (db : DBState) : Bool × DBState :=
  match computeWindow5m tx.timestamp with
  | none => (false, db)
  | some (ws, we) =>
    if env.histFail then (false, db)
    else
      (true, ⟨db.committed ++
        [metrics.map fun m => WriteOp.upsertHistogram
          ⟨m.metric_type, tx.transaction_type, ws, we, env.now, env.now⟩]⟩)

/-- `_route_to_dead_letter_queue`: a single `failed_items` insert and commit;
failures are caught and yield `False`. -/
def routeToDeadLetterQueue (env : PipelineEnv) (transactionId : Json)
    (errorType errorMessage : String) (rawPayload : Json) (db : DBState) :
    Bool × DBState :=
  if env.dlqFail then (false, db)
  else
    (true, ⟨db.committed ++
      [[WriteOp.insertFailedItem
        ⟨transactionId, env.correlationId, errorType, errorMessage, rawPayload,
         env.now⟩]]⟩)

/-! ## The per-event loop of `process_payment_transactions` -/

/-- `raw_payload.get(key, default)`; `none` models the `AttributeError`
raised when `raw_payload` is not a dict. -/
def pyDictGet (p : Json) (key : String) (dflt : Json) : Option Json :=
  match p with
  | .obj fs => some ((jlookup fs key).getD dflt)
  | _ => none

/-- Outcome of the body of the per-event `for` loop: `raised` marks an
exception escaping even the per-event handler (it aborts the whole
invocation through the outer catch-all, which re-raises). -/
inductive EventOutcome where
  | ok (db : DBState)
  | raised (db : DBState)

/-- `str(parse_result.error)` (simplified to the error's message field). -/
def errString : Option ValidationError → String
  | some e => e.message
  | none => ""

/-- One iteration of the event loop (`run.py` lines 560-664).  `body` is the
decoded event body (`none` when `json.loads` raises); `prev` is the
`raw_payload` left in scope by an earlier iteration, consulted by the
exception handler's `'raw_payload' in locals()` check.  Returns the outcome
and the new `prev`. -/
def processEvent (env : PipelineEnv) (prev : Option Json) (body : Option Json)
    (db : DBState) : EventOutcome × Option Json :=
  match body with
  | none =>
    -- json.loads raised, caught by the per-event handler, which dead-letters
    -- with reason processing_error using the stale raw_payload if any
    (match prev with
     | none =>
       (.ok (routeToDeadLetterQueue env (.str "unknown") "processing_error"
         "JSONDecodeError: decode failure" (.obj []) db).2, prev)
     | some p =>
       match pyDictGet p "transaction_id" (.str "unknown") with
       | some tid =>
         (.ok (routeToDeadLetterQueue env tid "processing_error"
           "JSONDecodeError: decode failure" p db).2, prev)
       | none => (.raised db, prev))  -- .get on non-dict raises in the handler
  | some rawPayload =>
    let pr := parseAndValidate env.now (some rawPayload)
    if pr.success then
      match pr.transaction with
      | some tx =>
        -- 1. blob buffering touches no database state (failures only log);
        -- 2..5. the three DB helpers run in order; False returns only log
        let metrics := extractMetrics tx
        let r1 := storeDynamicMetrics env tx metrics db
        let r2 := updatePaymentMetrics5m env tx r1.2
        let r3 := updateAggregateHistograms env tx metrics r2.2
        (.ok r3.2, some rawPayload)
      | none => (.ok db, some rawPayload)   -- unreachable: success carries tx
    else
      match pyDictGet rawPayload "transaction_id" (.str "unknown") with
      | some tid =>
        (.ok (routeToDeadLetterQueue env tid "validation_error"
          (errString pr.error) rawPayload db).2, some rawPayload)
      | none =>
        -- raw_payload.get raised AttributeError at the validation dead-letter
        -- call; the per-event handler re-raises the same way
        (.raised db, some rawPayload)

def processBatchGo (env : PipelineEnv) : List (Option Json) → Option Json →
    DBState → EventOutcome
  | [], _, db => .ok db
  | b :: rest, prev, db =>
    match processEvent env prev b db with
    | (.ok db', prev') => processBatchGo env rest prev' db'
    | (.raised db', _) => .raised db'

/-- `process_payment_transactions` over the decoded event bodies. -/
def processBatch (env : PipelineEnv) (bodies : List (Option Json))
    (db : DBState) : EventOutcome :=
  processBatchGo env bodies none db

/-! ## Rule engine — `src/metric_engine/rule_processor.py` -/

/-- `NormalizedTransaction` (pydantic model in `metric_engine/models.py`). -/
structure NormalizedTransaction where
  transaction_id : String
  transaction_timestamp : Datetime
  amount : ℚ
  currency : String
  payment_method : String
  payment_status : String
  customer_id : Option String
  customer_email : Option String
  customer_country : Option String
  merchant_id : Option String
  merchant_name : Option String
  merchant_category : Option String
  transaction_type : Option String
  channel : Option String
  device_type : Option String
  metadata : Option (List (String × Json))
  normalized_at : Datetime

/-- A `NormalizedTransaction` attribute value as seen by `getattr`. -/
inductive AttrVal where
  | s (v : String)
  | q (v : ℚ)
  | dt (v : Datetime)
  | meta (v : List (String × Json))
  | none

def optAttr : Option String → AttrVal
  | some v => .s v
  | Option.none => .none

/-- `getattr(transaction, field, None)`. -/
def NormalizedTransaction.getAttr (tx : NormalizedTransaction) : String → AttrVal
  | "transaction_id" => .s tx.transaction_id
  | "transaction_timestamp" => .dt tx.transaction_timestamp
  | "amount" => .q tx.amount
  | "currency" => .s tx.currency
  | "payment_method" => .s tx.payment_method
  | "payment_status" => .s tx.payment_status
  | "customer_id" => optAttr tx.customer_id
  | "customer_email" => optAttr tx.customer_email
  | "customer_country" => optAttr tx.customer_country
  | "merchant_id" => optAttr tx.merchant_id
  | "merchant_name" => optAttr tx.merchant_name
  | "merchant_category" => optAttr tx.merchant_category
  | "transaction_type" => optAttr tx.transaction_type
  | "channel" => optAttr tx.channel
  | "device_type" => optAttr tx.device_type
  | "metadata" => (match tx.metadata with
                   | some m => .meta m
                   | Option.none => .none)
  | "normalized_at" => .dt tx.normalized_at
  | _ => .none

/-- A rule condition dict.  An absent / `None` / empty condition dict is
uniformly falsy in the source (`if condition:` and
`if rule.get("condition")`), so all three are modelled as an absent
condition on the `Rule`. -/
structure RuleCondition where
  field : Option String
  operator : Option String
  value : Json

/-- A rule dict from the YAML rules file, with the `.get` defaults applied
at the use sites. -/
structure Rule where
  name : Option String
  enabled : Bool
  condition : Option RuleCondition
  metric_type : Option String
  metric_name : Option String
  metric_category : Option String
  field : Option String
  group_by : Option String
  rule_version : Option String

/-- `Decimal(s)` on plain `[±]digits[.digits]` literals; other accepted
Python spellings (exponents, leading blanks) are not exercised by this
code base and map to `none` (`InvalidOperation`). -/
def decimalOfString (s : String) : Option ℚ :=
  let parsePart : List Char → Option (Nat × Nat) := fun cs =>
    cs.foldl (fun acc c => acc.bind fun p =>
      (readDigit c).map fun d => (10 * p.1 + d, p.2 + 1)) (some (0, 0))
  let signed : List Char → ℚ × List Char := fun cs =>
    match cs with
    | '-' :: rest => (-1, rest)
    | '+' :: rest => (1, rest)
    | _ => (1, cs)
  let (sign, cs) := signed s.toList
  match cs.splitOn '.' with
  | [ip] => (parsePart ip).bind fun p =>
      if p.2 = 0 then none else some (sign * p.1)
  | [ip, fp] => (parsePart ip).bind fun p => (parsePart fp).bind fun q =>
      if p.2 = 0 ∧ q.2 = 0 then none
      else some (sign * ((p.1 : ℚ) + (q.1 : ℚ) / (10 ^ q.2 : ℚ)))
  | _ => none

/-- Python `==` between an attribute value and a YAML condition value. -/
def pyEqAttr : AttrVal → Json → Bool
  | .s v, .str s => v == s
  | .q v, .num q => v == q
  | .q v, .bool b => v == (if b then (1 : ℚ) else 0)
  | _, _ => false

/-- `Decimal(str(field_value))`; `none` models `InvalidOperation`. -/
def AttrVal.asDecimal : AttrVal → Option ℚ
  | .q v => some v
  | .s v => decimalOfString v
  | _ => Option.none

/-- `Decimal(str(value))` for the YAML condition value. -/
def Json.asDecimal : Json → Option ℚ
  | .num q => some q
  | .str s => decimalOfString s
  | _ => none

/-- `_evaluate_condition`; `none` models an exception (non-numeric Decimal
conversion), which `process_transaction` catches — the rule is skipped. -/
def evalCondition (cond : RuleCondition) (tx : NormalizedTransaction) :
    Option Bool :=
  match cond.field with
  | Option.none => some true            -- `if not field: return True`
  | some f =>
    if f == "" then some true else      -- the empty string is falsy too
    match tx.getAttr f with
    | .none => some false               -- `if field_value is None: return False`
    | fv =>
      match cond.operator with
      | some "==" => some (pyEqAttr fv cond.value)
      | some "!=" => some (!pyEqAttr fv cond.value)
      | some ">" => fv.asDecimal.bind fun a =>
          cond.value.asDecimal.map fun b => decide (a > b)
      | some ">=" => fv.asDecimal.bind fun a =>
          cond.value.asDecimal.map fun b => decide (a ≥ b)
      | some "<" => fv.asDecimal.bind fun a =>
          cond.value.asDecimal.map fun b => decide (a < b)
      | some "<=" => fv.asDecimal.bind fun a =>
          cond.value.asDecimal.map fun b => decide (a ≤ b)
      | _ => some false                 -- unknown operator: warning, False

/-- The shared `sum` / `average` / `derived` body: value of
`rule.get("field", "amount")` on the transaction, or `none` when missing or
not convertible. -/
def metricFieldValue (rule : Rule) (tx : NormalizedTransaction) : Option ℚ :=
  match tx.getAttr (rule.field.getD "amount") with
  | .none => Option.none
  | fv => fv.asDecimal

/-- `_calculate_metric_value`; `none` = Python `None` or an exception, both
of which end with no metric for this rule. -/
def calculateMetricValue (metricType : String) (rule : Rule)
    (tx : NormalizedTransaction) : Option ℚ :=
  if metricType == "count" then some 1
  else if metricType == "sum" then metricFieldValue rule tx
  else if metricType == "average" then metricFieldValue rule tx
  else if metricType == "percentage" then
    -- `Decimal("100") if rule.get("condition") else Decimal("0")`
    some (if rule.condition.isSome then 100 else 0)
  else if metricType == "ratio" then
    -- `Decimal("1") if rule.get("condition") else Decimal("0")`
    some (if rule.condition.isSome then 1 else 0)
  else if metricType == "derived" then metricFieldValue rule tx
  else none                             -- unknown metric type: warning, None

/-- Left-to-right non-overlapping replacement of a non-empty pattern, the
semantics of `str.replace`; the fuel is the input length, enough for every
step since a match consumes at least one character. -/
def replaceCharsFuel (pat rep : List Char) : Nat → List Char → List Char
  | 0, cs => cs
  | _ + 1, [] => []
  | fuel + 1, c :: rest =>
    if pat ≠ [] ∧ pat.isPrefixOf (c :: rest) then
      rep ++ replaceCharsFuel pat rep fuel ((c :: rest).drop pat.length)
    else c :: replaceCharsFuel pat rep fuel rest

def pyReplace (s pat rep : String) : String :=
  ⟨replaceCharsFuel pat.toList rep.toList s.toList.length s.toList⟩

/-- `_build_metric_name`: the conditional placeholder replacements (a
replace on a template without the placeholder is the identity). -/
def buildMetricName (template : String) (tx : NormalizedTransaction) : String :=
  let n1 := pyReplace template "\x7bpayment_method\x7d"
    (if tx.payment_method == "" then "unknown" else tx.payment_method)
  let n2 := pyReplace n1 "\x7bcurrency\x7d"
    (if tx.currency == "" then "unknown" else tx.currency)
  pyReplace n2 "\x7bcustomer_id\x7d"
    (match tx.customer_id with
     | some c => if c == "" then "unknown" else c
     | Option.none => "unknown")

def attrToJson : AttrVal → Json
  | .s v => .str v
  | .q v => .num v
  | .dt v => .dt v
  | .meta m => .obj m
  | .none => .null

def AttrVal.truthy : AttrVal → Bool
  | .s v => v ≠ ""
  | .q v => v ≠ 0
  | .dt _ => true
  | .meta m => ¬m.isEmpty
  | .none => false

/-- `_build_context`. -/
def buildContext (rule : Rule) (tx : NormalizedTransaction) :
    List (String × Json) :=
  let base : List (String × Json) := [
    ("rule_name", (rule.name.map Json.str).getD .null),
    ("transaction_timestamp", .str tx.transaction_timestamp.isoformat),
    ("payment_method", .str tx.payment_method),
    ("currency", .str tx.currency),
    ("payment_status", .str tx.payment_status)]
  match rule.group_by with
  | some g =>
    if g == "" then base
    else
      let gv := tx.getAttr g
      if gv.truthy then base ++ [("group_by", .obj [(g, attrToJson gv)])] else base
  | Option.none => base

/-- `DerivedMetric` (pydantic model). -/
structure DerivedMetric where
  transaction_id : String
  metric_name : String
  metric_value : ℚ
  metric_type : String
  metric_category : Option String
  rule_name : String
  rule_version : String
  context : List (String × Json)

/-- `_apply_rule`; `none` = no metric (condition false, missing field, or an
exception caught by the caller). -/
def applyRule (ruleVersion : String) (rule : Rule)
    (tx : NormalizedTransaction) : Option DerivedMetric :=
  let proceed : Option Bool :=
    match rule.condition with
    | some cond => evalCondition cond tx
    | Option.none => some true
  match proceed with
  | Option.none => none
  | some false => none
  | some true =>
    let metricType := rule.metric_type.getD "count"
    match calculateMetricValue metricType rule tx with
    | Option.none => none
    | some v =>
      some {
        transaction_id := tx.transaction_id
        metric_name := buildMetricName (rule.metric_name.getD "") tx
        metric_value := v
        metric_type := metricType
        metric_category := rule.metric_category
        rule_name := rule.name.getD "unknown"
        rule_version := rule.rule_version.getD ruleVersion
        context := buildContext rule tx }

/-- `process_transaction`: apply every enabled rule, collecting the metrics;
a per-rule exception only skips that rule. -/
def processTransaction (ruleVersion : String) (rules : List Rule)
    (tx : NormalizedTransaction) : List DerivedMetric :=
  rules.foldl (fun acc rule =>
    if rule.enabled then
      match applyRule ruleVersion rule tx with
      | some m => acc ++ [m]
      | Option.none => acc
    else acc) []

/-! ## Parquet serialization — `src/function_app/storage/parquet_serializer.py`

The round trip through `pq.write_table` / `pq.read_table` of an Arrow table
is modelled as the identity on typed rows; what the source adds — and what
is verified here — is the projection of `event_payload` onto the fixed
column schema and its reconstruction. -/

/-- Opaque UUID model.  `str(uuid)` / `UUID(str)` form a Python-library
bijection, so the string column is modelled as carrying the UUID itself. -/
structure UUID where
  val : Nat
  deriving DecidableEq, Repr

/-- `RawEvent` (`storage/raw_event.py`); the dataclass validates on
construction that `transaction_id` is non-empty, `correlation_id` is a UUID
and `event_payload` a dict. -/
structure RawEvent where
  transaction_id : String
  correlation_id : UUID
  event_payload : List (String × Json)
  created_at : Datetime

/-- `ParquetSerializer._parse_timestamp`. -/
def serParseTimestamp : Option Json → Option Datetime
  | some (.dt d) => some d              -- isinstance(value, datetime)
  | some (.str s) => pyParseTimestamp s -- ValueError is caught, giving None
  | _ => none

/-- `ParquetSerializer._parse_decimal`; `none` models an uncaught
`InvalidOperation` (`Decimal` on a non-numeric string or on `str(bool)`). -/
def serParseDecimal : Option Json → Option ℚ
  | Option.none => some 0
  | some .null => some 0                -- value None
  | some (.num q) => some q
  | some (.bool _) => Option.none       -- Decimal("True"/"False") raises
  | some (.str s) => decimalOfString s
  | some _ => some 0                    -- fallthrough: Decimal('0')

/-- `str(datetime)` rendering used by `json.dumps(..., default=str)` for
datetimes nested in metadata. -/
def Json.sanitize : Json → Json
  | .dt d => .str d.pyStr
  | .arr xs => .arr (xs.attach.map fun j => j.1.sanitize)
  | .obj fs => .obj (fs.attach.map fun p => (p.1.1, p.1.2.sanitize))
  | j => j
decreasing_by
  all_goals simp_wf
  · have := List.sizeOf_lt_of_mem j.2
    omega
  · have h1 := List.sizeOf_lt_of_mem p.2
    obtain ⟨⟨a, b⟩, hp⟩ := p
    simp at h1 ⊢
    omega

/-- One row of the Arrow table (`PARQUET_SCHEMA`). -/
structure ArrowRow where
  transaction_id : String
  correlation_id : UUID
  transaction_timestamp : Option Datetime
  ingestion_timestamp : Option Datetime
  processing_timestamp : Option Datetime
  amount : ℚ
  currency : Option String
  payment_method : Option String
  payment_status : Option String
  customer_id : Option String
  customer_email : Option String
  customer_country : Option String
  merchant_id : Option String
  merchant_name : Option String
  merchant_category : Option String
  transaction_type : Option String
  channel : Option String
  device_type : Option String
  metadata : Option Json
  created_at : Datetime
  updated_at : Option Datetime

/-- An Arrow string cell: null or a string; anything else makes
`Table.from_pylist` raise (surfaced as `BufferError`). -/
def strCell : Json → Option (Option String)
  | .str s => some (some s)
  | .null => some Option.none
  | _ => Option.none

/-- A nullable string column fed from `payload.get(key)`. -/
def optStrCell : Option Json → Option (Option String)
  | Option.none => some Option.none
  | some v => strCell v

/-- One row of `_events_to_arrow_table`; `none` models the `BufferError`
raised when a value cannot be converted (every failure mode produces the
same `BufferError`, so they are decided jointly). -/
def serializeEvent (e : RawEvent) : Option ArrowRow :=
  let p := e.event_payload
  let tts : Option Datetime :=
    match jlookup p "transaction_timestamp" with
    | Option.none => some e.created_at  -- `.get` default: event.created_at
    | some v => serParseTimestamp (some v)
  match serParseDecimal (jlookup p "amount"),
        strCell ((jlookup p "currency").getD (.str "")),
        strCell ((jlookup p "payment_method").getD (.str "")),
        strCell ((jlookup p "payment_status").getD (.str "")),
        optStrCell (jlookup p "customer_id"),
        optStrCell (jlookup p "customer_email"),
        optStrCell (jlookup p "customer_country"),
        optStrCell (jlookup p "merchant_id"),
        optStrCell (jlookup p "merchant_name"),
        optStrCell (jlookup p "merchant_category"),
        optStrCell (jlookup p "transaction_type"),
        optStrCell (jlookup p "channel"),
        optStrCell (jlookup p "device_type") with
  | some amt, some currency, some paymentMethod, some paymentStatus,
    some customerId, some customerEmail, some customerCountry,
    some merchantId, some merchantName, some merchantCategory,
    some transactionType, some channel, some deviceType =>
    some {
      transaction_id := e.transaction_id
      correlation_id := e.correlation_id
      transaction_timestamp := tts
      ingestion_timestamp := serParseTimestamp (jlookup p "ingestion_timestamp")
      processing_timestamp := serParseTimestamp (jlookup p "processing_timestamp")
      amount := amt
      currency := currency
      payment_method := paymentMethod
      payment_status := paymentStatus
      customer_id := customerId
      customer_email := customerEmail
      customer_country := customerCountry
      merchant_id := merchantId
      merchant_name := merchantName
      merchant_category := merchantCategory
      transaction_type := transactionType
      channel := channel
      device_type := deviceType
      metadata :=
        (match jlookup p "metadata" with
         | some v => if v.truthy then some v.sanitize else Option.none
         | Option.none => Option.none)
      created_at := e.created_at
      updated_at := serParseTimestamp (jlookup p "updated_at") }
  | _, _, _, _, _, _, _, _, _, _, _, _, _ => Option.none

def optDtJson : Option Datetime → Json
  | some d => .dt d
  | Option.none => .null

def optStrJson : Option String → Json
  | some s => .str s
  | Option.none => .null

/-- The payload reconstruction of `deserialize_events` (lines 287-330):
fixed keys, `row.get` values (timestamps come back as datetime objects),
metadata only when present. -/
def deserializeRow (row : ArrowRow) : RawEvent :=
  let basePayload : List (String × Json) := [
    ("transaction_timestamp", optDtJson row.transaction_timestamp),
    ("ingestion_timestamp", optDtJson row.ingestion_timestamp),
    ("processing_timestamp", optDtJson row.processing_timestamp),
    ("amount", .num row.amount),       -- float(x) if truthy else 0: the value
    ("currency", optStrJson row.currency),
    ("payment_method", optStrJson row.payment_method),
    ("payment_status", optStrJson row.payment_status),
    ("customer_id", optStrJson row.customer_id),
    ("customer_email", optStrJson row.customer_email),
    ("customer_country", optStrJson row.customer_country),
    ("merchant_id", optStrJson row.merchant_id),
    ("merchant_name", optStrJson row.merchant_name),
    ("merchant_category", optStrJson row.merchant_category),
    ("transaction_type", optStrJson row.transaction_type),
    ("channel", optStrJson row.channel),
    ("device_type", optStrJson row.device_type),
    ("updated_at", optDtJson row.updated_at)]
  { transaction_id := row.transaction_id
    correlation_id := row.correlation_id  -- UUID(correlation_id_str)
    event_payload := basePayload ++
      (match row.metadata with
       | some m => [("metadata", m)]      -- json.loads of the dumped string
       | Option.none => [])
    created_at := row.created_at }

/-- `serialize_events`; `none` models `BufferError` (empty list or a
conversion failure). -/
def serializeEvents (events : List RawEvent) : Option (List ArrowRow) :=
  if events.isEmpty then Option.none
  else events.mapM serializeEvent

/-- `deserialize_events` on the decoded rows. -/
def deserializeEvents (rows : List ArrowRow) : List RawEvent :=
  rows.map deserializeRow

/-! ## Upload retry — `blob_raw_event_store.py` `_upload_with_retry` -/

inductive UploadOutcome where
  | success
  | azureTransient       -- AzureError with `_is_transient_error` true
  | azurePermanent       -- AzureError, not transient
  | otherError           -- any other exception

structure RetryTrace where
  attempts : Nat
  sleeps : List Nat
  ok : Bool
  deriving DecidableEq, Repr

def retryDelays : List Nat := [1, 2, 4]

/-- The loop `for attempt in range(max_retries + 1)` with the outcome of the
`attempt`-th upload given by `oracle`.  Records uploads attempted and the
`time.sleep` durations; `ok = false` is the `StorageError` raised after a
permanent error or exhaustion.  (`retry_delays[attempt]` is always in range
for the fixed `max_retries = 3`.) -/
def uploadLoop (oracle : Nat → UploadOutcome) (maxRetries : Nat) :
    Nat → Nat → List Nat → RetryTrace
  | 0, att, sl => ⟨att, sl, false⟩     -- loop exhausted (the final safety raise)
  | fuel + 1, att, sl =>
    match oracle att with
    | .success => ⟨att + 1, sl, true⟩
    | .azureTransient =>
      if att < maxRetries then
        uploadLoop oracle maxRetries fuel (att + 1) (sl ++ [retryDelays.getD att 0])
      else ⟨att + 1, sl, false⟩
    | .azurePermanent => ⟨att + 1, sl, false⟩
    | .otherError => ⟨att + 1, sl, false⟩

/-- `_upload_with_retry(..., max_retries)`. -/
def uploadWithRetry (oracle : Nat → UploadOutcome) (maxRetries : Nat) :
    RetryTrace :=
  uploadLoop oracle maxRetries (maxRetries + 1) 0 []

/-! ## Broker consumers — `consumer/event_hubs.py`, `consumer/kafka.py` -/

structure Message where
  message_id : String
  correlation_id : String
  timestamp : Datetime
  headers : List (String × String)
  body : String
  offset : Int
  sequence_number : Int

structure MessageBatch where
  messages : List Message
  batch_id : String
  received_at : Datetime
  broker_type : String

/-- `MessageBatch.is_empty` (and `not batch`, which `len`-coerces to the
same test). -/
def MessageBatch.isEmpty (b : MessageBatch) : Bool := b.messages.isEmpty

inductive ConsumerError where
  | connectionError (msg : String)
  | valueError (msg : String)
  | commitError

structure EventHubsConsumerState where
  connected : Bool
  hasClient : Bool

/-- `EventHubsConsumer.is_connected`. -/
def EventHubsConsumerState.isConnected (st : EventHubsConsumerState) : Bool :=
  st.connected && st.hasClient

/-- `EventHubsConsumer.acknowledge_batch` (a logged no-op after the
guards). -/
def ehAcknowledgeBatch (st : EventHubsConsumerState) (batch : MessageBatch) :
    Except ConsumerError Unit :=
  if ¬st.isConnected then .error (.connectionError "Not connected to Event Hubs")
  else if batch.isEmpty then .error (.valueError "Cannot acknowledge empty batch")
  else .ok ()

/-- `EventHubsConsumer.checkpoint`. -/
def ehCheckpoint (st : EventHubsConsumerState) (batch : MessageBatch) :
    Except ConsumerError Unit :=
  if ¬st.isConnected then .error (.connectionError "Not connected to Event Hubs")
  else if batch.isEmpty then .error (.valueError "Cannot checkpoint empty batch")
  else .ok ()

structure KafkaConsumerState where
  connected : Bool
  hasConsumer : Bool
  commitRaises : Bool

/-- `KafkaConsumer.is_connected`. -/
def KafkaConsumerState.isConnected (st : KafkaConsumerState) : Bool :=
  st.connected && st.hasConsumer

/-- `KafkaConsumer.acknowledge_batch`: guards, then a synchronous offset
commit whose exceptions are re-raised. -/
def kafkaAcknowledgeBatch (st : KafkaConsumerState) (batch : MessageBatch) :
    Except ConsumerError Unit :=
  if ¬st.isConnected then .error (.connectionError "Not connected to Kafka")
  else if batch.isEmpty then .error (.valueError "Cannot acknowledge empty batch")
  else if st.commitRaises then .error .commitError
  else .ok ()

/-- `KafkaConsumer.checkpoint`. -/
def kafkaCheckpoint (st : KafkaConsumerState) (batch : MessageBatch) :
    Except ConsumerError Unit :=
  if ¬st.isConnected then .error (.connectionError "Not connected to Kafka")
  else if batch.isEmpty then .error (.valueError "Cannot checkpoint empty batch")
  else if st.commitRaises then .error .commitError
  else .ok ()

/-! ## Concrete inputs used in the claim-level results -/

def exNow : Datetime := ⟨2025, 2, 2, 3, 4, 5, 6, Option.none⟩

def exPayload : Json := .obj [
  ("transaction_id", .str "tx-001"), ("correlation_id", .str "corr-001"),
  ("timestamp", .str "2025-01-01T12:00:00Z"), ("transaction_type", .str "payment"),
  ("channel", .str "web"), ("amount", .num 5), ("currency", .str "USD"),
  ("merchant_id", .str "m-1"), ("customer_id", .str "cu-1"),
  ("status", .str "success"), ("metadata", .obj [("payment_method", .str "card")])]

/-- The transaction `exPayload` parses to (the `Z` offset normalized). -/
def exTx : ParsedTransaction :=
  { transaction_id := "tx-001", correlation_id := "corr-001",
    timestamp := ⟨2025, 1, 1, 12, 0, 0, 0, some 0⟩,
    transaction_type := "payment", channel := "web", amount := 5,
    currency := "USD", merchant_id := "m-1", customer_id := "cu-1",
    status := .success, metadata := [("payment_method", Json.str "card")] }

/-- A transaction whose event timestamp falls in the last five minutes of
an hour (aligned minute 55). -/
def exTx55 : ParsedTransaction :=
  { exTx with timestamp := ⟨2025, 1, 1, 12, 55, 0, 0, Option.none⟩ }

def exEnvOk : PipelineEnv := ⟨exNow, "corr-run", false, false, false, false⟩

/-- All sinks healthy except the `payment_metrics_5m` upsert. -/
def exEnvAggFail : PipelineEnv := ⟨exNow, "corr-run", false, true, false, false⟩

/-- All sinks healthy except the `dynamic_metrics` insert. -/
def exEnvDynFail : PipelineEnv := ⟨exNow, "corr-run", true, false, false, false⟩

def EventOutcome.db : EventOutcome → DBState
  | .ok db => db
  | .raised db => db

/-! ## Shape lemmas for the parser -/

theorem parseAndValidate_eq_cases (now : Datetime) (input : Option Json) :
    (∃ e, parseAndValidate now input = .errorResult e) ∨
    (∃ tx, parseAndValidate now input = .successResult tx) := by
  cases input with
  | none => exact .inl ⟨_, rfl⟩
  | some data =>
    cases hv : validateAgainstSchema data with
    | some e => exact .inl ⟨e, by simp [parseAndValidate, hv]⟩
    | none =>
      cases hc : createTransaction now data with
      | none => exact .inl ⟨creationError, by simp [parseAndValidate, hv, hc]⟩
      | some tx => exact .inr ⟨tx, by simp [parseAndValidate, hv, hc]⟩

theorem successResult_of_transaction_some (now : Datetime) (input : Option Json)
    (tx : ParsedTransaction)
    (h : (parseAndValidate now input).transaction = some tx) :
    parseAndValidate now input = .successResult tx := by
  rcases parseAndValidate_eq_cases now input with ⟨e, he⟩ | ⟨tx', ht⟩
  · rw [he] at h
    cases h
  · rw [ht] at h ⊢
    simp only [ParseResult.successResult, Option.some.injEq] at h
    rw [h]

/-! ## Claim C1 — window computation at aligned minute 55 -/

/-- C1: the claim states that the aggregate upsert and the histogram upsert
compute the 5-minute window for every transaction timestamp, including
timestamps whose aligned minute is 55.  The code computes `window_end` with
`window_start.replace(minute=window_start.minute + 5)`, which raises
`ValueError` (`minute=60`) for every timestamp in the last five minutes of
an hour; both helpers catch it and return `False`, so no row is upserted.
This theorem evaluates the embedded computation at the failing input
2025-01-01 12:55:00 (and, for contrast, at 12:54:59.999999, where the
window is correct). -/
theorem C1_window_minute55_fails :
    computeWindow5m ⟨2025, 1, 1, 12, 55, 0, 0, Option.none⟩ = Option.none ∧
    updatePaymentMetrics5m exEnvOk exTx55 ⟨[]⟩ = (false, ⟨[]⟩) ∧
    updateAggregateHistograms exEnvOk exTx55 (extractMetrics exTx55) ⟨[]⟩ =
      (false, ⟨[]⟩) ∧
    computeWindow5m ⟨2025, 1, 1, 12, 54, 59, 999999, Option.none⟩ =
      some (⟨2025, 1, 1, 12, 50, 0, 0, Option.none⟩,
            ⟨2025, 1, 1, 12, 55, 0, 0, Option.none⟩) :=
  ⟨rfl, rfl, rfl, rfl⟩

/-! ## Claim C5 — percentage / ratio metric values -/

def exNTx : NormalizedTransaction :=
  { transaction_id := "t1",
    transaction_timestamp := ⟨2025, 1, 1, 12, 0, 0, 0, Option.none⟩,
    amount := 100, currency := "USD", payment_method := "card",
    payment_status := "completed", customer_id := some "c1",
    customer_email := Option.none, customer_country := Option.none,
    merchant_id := Option.none, merchant_name := Option.none,
    merchant_category := Option.none, transaction_type := some "payment",
    channel := Option.none, device_type := Option.none,
    metadata := Option.none,
    normalized_at := ⟨2025, 1, 1, 12, 0, 0, 0, Option.none⟩ }

/-- An enabled percentage rule whose condition does not match `exNTx`. -/
def exPctRuleNoMatch : Rule :=
  { name := some "pct-rule", enabled := true,
    condition := some ⟨some "payment_status", some "==", .str "failed"⟩,
    metric_type := some "percentage", metric_name := some "pct_metric",
    metric_category := Option.none, field := Option.none,
    group_by := Option.none, rule_version := Option.none }

/-- The same rule with a condition that matches `exNTx`. -/
def exPctRuleMatch : Rule :=
  { exPctRuleNoMatch with
    condition := some ⟨some "payment_status", some "==", .str "completed"⟩ }

def exRatioRuleNoMatch : Rule :=
  { exPctRuleNoMatch with metric_type := some "ratio" }

/-- C5 counterexample: the claim says an enabled `percentage` rule whose
condition does not match still yields a DerivedMetric with value 0 (and a
`ratio` rule one with value 0).  On the code, `_apply_rule` returns `None`
as soon as the condition fails, so the engine produces no metric at all for
these rules. -/
theorem C5_counterexample :
    processTransaction "1.0.0" [exPctRuleNoMatch] exNTx = [] ∧
    processTransaction "1.0.0" [exRatioRuleNoMatch] exNTx = [] :=
  ⟨rfl, rfl⟩

/-- C5 as amended: for an enabled rule of metric type `percentage`, a
matching condition yields value 100, a failing condition yields no metric at
all, and an absent condition yields value 0; analogously 1 / no metric / 0
for `ratio`.  (The engine emits exactly `_apply_rule`'s output for an
enabled rule.) -/
theorem C5_amended (rv : String) (rule : Rule) (tx : NormalizedTransaction)
    (hen : rule.enabled = true) :
    processTransaction rv [rule] tx = (applyRule rv rule tx).toList ∧
    (rule.metric_type = some "percentage" →
      (∀ cond, rule.condition = some cond → evalCondition cond tx = some true →
        (applyRule rv rule tx).map (fun m => m.metric_value) = some 100) ∧
      (∀ cond, rule.condition = some cond → evalCondition cond tx = some false →
        applyRule rv rule tx = Option.none) ∧
      (rule.condition = Option.none →
        (applyRule rv rule tx).map (fun m => m.metric_value) = some 0)) ∧
    (rule.metric_type = some "ratio" →
      (∀ cond, rule.condition = some cond → evalCondition cond tx = some true →
        (applyRule rv rule tx).map (fun m => m.metric_value) = some 1) ∧
      (∀ cond, rule.condition = some cond → evalCondition cond tx = some false →
        applyRule rv rule tx = Option.none) ∧
      (rule.condition = Option.none →
        (applyRule rv rule tx).map (fun m => m.metric_value) = some 0)) := by
  refine ⟨?_, ?_, ?_⟩
  · simp only [processTransaction, List.foldl, hen, if_true]
    cases applyRule rv rule tx <;> simp
  · intro hmt
    refine ⟨?_, ?_, ?_⟩
    · intro cond hc hev
      simp [applyRule, hc, hev, hmt, calculateMetricValue]
    · intro cond hc hev
      simp [applyRule, hc, hev]
    · intro hc
      simp [applyRule, hc, hmt, calculateMetricValue]
  · intro hmt
    refine ⟨?_, ?_, ?_⟩
    · intro cond hc hev
      simp [applyRule, hc, hev, hmt, calculateMetricValue]
    · intro cond hc hev
      simp [applyRule, hc, hev]
    · intro hc
      simp [applyRule, hc, hmt, calculateMetricValue]

/-- Witness for `C5_amended` at concrete inputs. -/
theorem C5_amended_witness :
    processTransaction "1.0.0" [exPctRuleMatch] exNTx =
      (applyRule "1.0.0" exPctRuleMatch exNTx).toList ∧
    (applyRule "1.0.0" exPctRuleMatch exNTx).map (fun m => m.metric_value) =
      some 100 :=
  ⟨(C5_amended "1.0.0" exPctRuleMatch exNTx rfl).1,
   ((C5_amended "1.0.0" exPctRuleMatch exNTx rfl).2.1 rfl).1
     ⟨some "payment_status", some "==", .str "completed"⟩ rfl (by decide)⟩

/-! ## Claim C7 — upload retry schedule -/

/-- C7 counterexample: with a transient failure on every try,
`_upload_with_retry` makes four attempts (the loop runs
`range(max_retries + 1)` with `max_retries = 3`) and sleeps 1 s, 2 s and
4 s — not three attempts with sleeps 1 s and 2 s as the claim states. -/
theorem C7_counterexample :
    uploadWithRetry (fun _ => UploadOutcome.azureTransient) 3 =
      ⟨4, [1, 2, 4], false⟩ ∧
    (uploadWithRetry (fun _ => UploadOutcome.azureTransient) 3).attempts ≠ 3 ∧
    (uploadWithRetry (fun _ => UploadOutcome.azureTransient) 3).sleeps ≠ [1, 2] :=
  ⟨rfl, by decide, by decide⟩

/-- C7 as amended: when every try fails with a transient error, the store
makes exactly four upload attempts in total, sleeping 1 s, 2 s and 4 s after
the first, second and third failures, then declares the flush failed. -/
theorem C7_amended (oracle : Nat → UploadOutcome)
    (h : ∀ n, oracle n = UploadOutcome.azureTransient) :
    uploadWithRetry oracle 3 = ⟨4, [1, 2, 4], false⟩ := by
  simp [uploadWithRetry, uploadLoop, h, retryDelays]

/-- Witness for `C7_amended`. -/
theorem C7_amended_witness :
    uploadWithRetry (fun _ => UploadOutcome.azureTransient) 3 =
      ⟨4, [1, 2, 4], false⟩ :=
  C7_amended (fun _ => UploadOutcome.azureTransient) (fun _ => rfl)

/-! ## Claim C9 — acknowledge / checkpoint on an empty batch -/

/-- C9: on a connected consumer of either flavor, `acknowledge_batch` and
`checkpoint` on an empty batch raise `ValueError` rather than silently
succeeding. -/
theorem C9_empty_batch_raises (ehSt : EventHubsConsumerState)
    (kSt : KafkaConsumerState) (b : MessageBatch)
    (heh : ehSt.isConnected = true) (hk : kSt.isConnected = true)
    (hempty : b.isEmpty = true) :
    ehAcknowledgeBatch ehSt b =
      .error (.valueError "Cannot acknowledge empty batch") ∧
    ehCheckpoint ehSt b = .error (.valueError "Cannot checkpoint empty batch") ∧
    kafkaAcknowledgeBatch kSt b =
      .error (.valueError "Cannot acknowledge empty batch") ∧
    kafkaCheckpoint kSt b =
      .error (.valueError "Cannot checkpoint empty batch") := by
  simp [ehAcknowledgeBatch, ehCheckpoint, kafkaAcknowledgeBatch, kafkaCheckpoint,
    heh, hk, hempty]

def exEmptyBatch : MessageBatch :=
  ⟨[], "batch-0", ⟨2025, 1, 1, 0, 0, 0, 0, Option.none⟩, "event_hubs"⟩

/-- Witness for `C9_empty_batch_raises`. -/
theorem C9_empty_batch_raises_witness :
    ehAcknowledgeBatch ⟨true, true⟩ exEmptyBatch =
      .error (.valueError "Cannot acknowledge empty batch") ∧
    ehCheckpoint ⟨true, true⟩ exEmptyBatch =
      .error (.valueError "Cannot checkpoint empty batch") ∧
    kafkaAcknowledgeBatch ⟨true, true, false⟩ exEmptyBatch =
      .error (.valueError "Cannot acknowledge empty batch") ∧
    kafkaCheckpoint ⟨true, true, false⟩ exEmptyBatch =
      .error (.valueError "Cannot checkpoint empty batch") :=
  C9_empty_batch_raises ⟨true, true⟩ ⟨true, true, false⟩ exEmptyBatch rfl rfl rfl

/-! ## Claim C10 — `DataParser.parse_and_validate` totality invariant -/

/-- C10: `DataParser.parse_and_validate` always returns a `ParseResult` (the
embedding is a total function), and in every result the transaction field is
populated exactly on success and the error field exactly on failure. -/
theorem C10_parse_result_invariant (now : Datetime) (input : Option Json)
    (m : ParserMetrics) :
    (dataParserParseAndValidate now input m).1.transaction.isSome =
      (dataParserParseAndValidate now input m).1.success ∧
    (dataParserParseAndValidate now input m).1.error.isSome =
      !(dataParserParseAndValidate now input m).1.success := by
  have hres : (dataParserParseAndValidate now input m).1 =
      parseAndValidate now input := by
    unfold dataParserParseAndValidate
    dsimp only
    split
    · rfl
    · split <;> rfl
  rw [hres]
  rcases parseAndValidate_eq_cases now input with ⟨e, he⟩ | ⟨tx, ht⟩
  · simp [he, ParseResult.errorResult]
  · simp [ht, ParseResult.successResult]

/-! ## Claims C2 and C3 — transaction boundaries and the dead-letter path -/

theorem failedItems_append_no_failed (db : DBState) (txns : List (List WriteOp))
    (h : ∀ t ∈ txns, ∀ op ∈ t, op.failedItemRow = Option.none) :
    DBState.failedItems ⟨db.committed ++ txns⟩ = db.failedItems := by
  unfold DBState.failedItems
  rw [List.flatten_append, List.filterMap_append]
  have hnil : (txns.flatten).filterMap WriteOp.failedItemRow = [] := by
    rw [List.filterMap_eq_nil_iff]
    intro op hop
    rw [List.mem_flatten] at hop
    obtain ⟨t, ht, hop⟩ := hop
    exact h t ht op hop
  rw [hnil, List.append_nil]

theorem storeDynamicMetrics_failedItems (env : PipelineEnv)
    (tx : ParsedTransaction) (metrics : List MetricDict) (db : DBState) :
    ((storeDynamicMetrics env tx metrics db).2).failedItems = db.failedItems := by
  unfold storeDynamicMetrics
  split
  · rfl
  · apply failedItems_append_no_failed
    intro t ht op hop
    rw [List.mem_singleton] at ht
    subst ht
    obtain ⟨m, _, rfl⟩ := List.mem_map.mp hop
    rfl

theorem updatePaymentMetrics5m_failedItems (env : PipelineEnv)
    (tx : ParsedTransaction) (db : DBState) :
    ((updatePaymentMetrics5m env tx db).2).failedItems = db.failedItems := by
  unfold updatePaymentMetrics5m
  split
  · rfl
  · split
    · rfl
    · apply failedItems_append_no_failed
      intro t ht op hop
      rw [List.mem_singleton] at ht
      subst ht
      rw [List.mem_singleton] at hop
      subst hop
      rfl

theorem updateAggregateHistograms_failedItems (env : PipelineEnv)
    (tx : ParsedTransaction) (metrics : List MetricDict) (db : DBState) :
    ((updateAggregateHistograms env tx metrics db).2).failedItems =
      db.failedItems := by
  unfold updateAggregateHistograms
  split
  · rfl
  · split
    · rfl
    · apply failedItems_append_no_failed
      intro t ht op hop
      rw [List.mem_singleton] at ht
      subst ht
      obtain ⟨m, _, rfl⟩ := List.mem_map.mp hop
      rfl

/-- C3 counterexample: with the `dynamic_metrics` insert failing, the claim
demands a FailedItem row with reason `processing_error` before the next
message; on the code the helper catches the error and returns `False`, the
loop merely logs a warning, no FailedItem row is written (`failed_items`
stays empty), and processing continues (the aggregate upsert still
commits). -/
theorem C3_counterexample :
    ((processEvent exEnvDynFail Option.none (some exPayload) ⟨[]⟩).1).db.failedItems
      = [] ∧
    (storeDynamicMetrics exEnvDynFail exTx (extractMetrics exTx) ⟨[]⟩).1 = false ∧
    ((processEvent exEnvDynFail Option.none
        (some exPayload) ⟨[]⟩).1).db.committed.flatten.any WriteOp.isDynInsert
      = false ∧
    ((processEvent exEnvDynFail Option.none
        (some exPayload) ⟨[]⟩).1).db.committed.flatten.any WriteOp.isAggUpsert
      = true :=
  ⟨rfl, rfl, rfl, rfl⟩

/-- C3 as amended: for a message that parses successfully, derived-metric and
aggregate write failures are caught inside the helpers and only logged — the
message is never routed to the dead-letter sink (under any combination of
sink failures the `failed_items` table is unchanged), and the loop proceeds
normally.  (Reason `processing_error` is used only when an exception escapes
the helpers, e.g. an undecodable event body.) -/
theorem C3_amended (env : PipelineEnv) (prev : Option Json) (payload : Json)
    (db : DBState) (tx : ParsedTransaction)
    (hsucc : (parseAndValidate env.now (some payload)).transaction = some tx) :
    ∃ db', processEvent env prev (some payload) db = (.ok db', some payload) ∧
      db'.failedItems = db.failedItems := by
  have hp := successResult_of_transaction_some env.now (some payload) tx hsucc
  simp only [processEvent, hp, ParseResult.successResult, eq_self_iff_true,
    if_true]
  exact ⟨_, rfl, by
    rw [updateAggregateHistograms_failedItems, updatePaymentMetrics5m_failedItems,
      storeDynamicMetrics_failedItems]⟩

/-- Witness for `C3_amended`. -/
theorem C3_amended_witness :
    ∃ db', processEvent exEnvDynFail Option.none (some exPayload) ⟨[]⟩ =
      (.ok db', some exPayload) ∧
      db'.failedItems = DBState.failedItems ⟨[]⟩ :=
  C3_amended exEnvDynFail Option.none exPayload ⟨[]⟩ exTx rfl

/-- C2 counterexample: the claim says all derived-metric inserts and
aggregate upserts of a message commit inside one single DB transaction, all
or none.  With the `payment_metrics_5m` upsert failing and the others
healthy, the dynamic-metric inserts are committed while the aggregate upsert
is not (not all-or-none); and even with every sink healthy the message's
writes land in three separate committed transactions, not one. -/
theorem C2_counterexample :
    ((processEvent exEnvAggFail Option.none
        (some exPayload) ⟨[]⟩).1).db.committed.flatten.any WriteOp.isDynInsert
      = true ∧
    ((processEvent exEnvAggFail Option.none
        (some exPayload) ⟨[]⟩).1).db.committed.flatten.any WriteOp.isAggUpsert
      = false ∧
    ((processEvent exEnvOk Option.none
        (some exPayload) ⟨[]⟩).1).db.committed.length = 3 ∧
    ((processEvent exEnvOk Option.none
        (some exPayload) ⟨[]⟩).1).db.committed.length ≠ 1 :=
  ⟨rfl, rfl, rfl, by decide⟩

/-- C2 as amended: for a successfully parsed message processed with healthy
sinks, the writes are committed as exactly three separate DB transactions,
in order: one containing the derived-metric inserts, one containing the
aggregate upsert, and one containing the histogram upserts — each atomic on
its own and committed during the processing of this message (hence before
the next message is handled), but not atomic as a group. -/
theorem C2_amended (env : PipelineEnv) (prev : Option Json) (payload : Json)
    (db : DBState) (tx : ParsedTransaction) (ws we : Datetime)
    (hsucc : (parseAndValidate env.now (some payload)).transaction = some tx)
    (hdyn : env.dynFail = false) (hagg : env.aggFail = false)
    (hhist : env.histFail = false)
    (hwin : computeWindow5m tx.timestamp = some (ws, we)) :
    processEvent env prev (some payload) db =
      (.ok ⟨db.committed ++
        [(extractMetrics tx).map (fun m => WriteOp.insertDynamicMetric
            ⟨tx.transaction_id, env.correlationId, m.metric_type, m.metric_value,
             m.metric_data, env.now⟩),
         [WriteOp.upsertPaymentMetrics5m
            ⟨ws, we, (jlookup tx.metadata "payment_method").getD (.str "unknown"),
             tx.currency, tx.status.value, tx.amount, env.now, env.now⟩],
         (extractMetrics tx).map (fun m => WriteOp.upsertHistogram
            ⟨m.metric_type, tx.transaction_type, ws, we, env.now, env.now⟩)]⟩,
       some payload) := by
  have hp := successResult_of_transaction_some env.now (some payload) tx hsucc
  have h1 : storeDynamicMetrics env tx (extractMetrics tx) db =
      (true, ⟨db.committed ++
        [(extractMetrics tx).map (fun m => WriteOp.insertDynamicMetric
           ⟨tx.transaction_id, env.correlationId, m.metric_type, m.metric_value,
            m.metric_data, env.now⟩)]⟩) := by
    simp [storeDynamicMetrics, hdyn]
  have h2 : ∀ d : DBState, updatePaymentMetrics5m env tx d =
      (true, ⟨d.committed ++
        [[WriteOp.upsertPaymentMetrics5m
           ⟨ws, we, (jlookup tx.metadata "payment_method").getD (.str "unknown"),
            tx.currency, tx.status.value, tx.amount, env.now, env.now⟩]]⟩) := by
    intro d
    unfold updatePaymentMetrics5m
    rw [hwin, hagg]
    rfl
  have h3 : ∀ d : DBState, updateAggregateHistograms env tx (extractMetrics tx) d =
      (true, ⟨d.committed ++
        [(extractMetrics tx).map (fun m => WriteOp.upsertHistogram
           ⟨m.metric_type, tx.transaction_type, ws, we, env.now, env.now⟩)]⟩) := by
    intro d
    unfold updateAggregateHistograms
    rw [hwin, hhist]
    rfl
  simp only [processEvent, hp, ParseResult.successResult, eq_self_iff_true,
    if_true]
  rw [h1, h2, h3]
  simp [List.append_assoc]

/-- Witness for `C2_amended`. -/
theorem C2_amended_witness :
    processEvent exEnvOk Option.none (some exPayload) ⟨[]⟩ =
      (.ok ⟨([] : List (List WriteOp)) ++
        [(extractMetrics exTx).map (fun m => WriteOp.insertDynamicMetric
            ⟨exTx.transaction_id, exEnvOk.correlationId, m.metric_type,
             m.metric_value, m.metric_data, exEnvOk.now⟩),
         [WriteOp.upsertPaymentMetrics5m
            ⟨⟨2025, 1, 1, 12, 0, 0, 0, some 0⟩, ⟨2025, 1, 1, 12, 5, 0, 0, some 0⟩,
             (jlookup exTx.metadata "payment_method").getD (.str "unknown"),
             exTx.currency, exTx.status.value, exTx.amount, exEnvOk.now,
             exEnvOk.now⟩],
         (extractMetrics exTx).map (fun m => WriteOp.upsertHistogram
            ⟨m.metric_type, exTx.transaction_type,
             ⟨2025, 1, 1, 12, 0, 0, 0, some 0⟩, ⟨2025, 1, 1, 12, 5, 0, 0, some 0⟩,
             exEnvOk.now, exEnvOk.now⟩)]⟩,
       some exPayload) :=
  C2_amended exEnvOk Option.none exPayload ⟨[]⟩ exTx
    ⟨2025, 1, 1, 12, 0, 0, 0, some 0⟩ ⟨2025, 1, 1, 12, 5, 0, 0, some 0⟩
    rfl rfl rfl rfl rfl

/-! ## Claim C6 — timestamp handling in `_create_transaction` -/

theorem createTransaction_timestamp (now : Datetime) (fs : List (String × Json))
    (tx : ParsedTransaction) (h : createTransaction now (.obj fs) = some tx) :
    tx.timestamp = createTimestamp now fs := by
  simp only [createTransaction] at h
  repeat' split at h
  all_goals cases h
  all_goals rfl

def exBadTsFields : List (String × Json) := [
  ("transaction_id", .str "tx-001"), ("correlation_id", .str "corr-001"),
  ("timestamp", .str "not-a-date"), ("transaction_type", .str "payment"),
  ("channel", .str "web"), ("amount", .num 5), ("currency", .str "USD"),
  ("merchant_id", .str "m-1"), ("customer_id", .str "cu-1"),
  ("status", .str "success")]

def exPayloadBadTs : Json := .obj exBadTsFields

/-- The transaction `exPayloadBadTs` parses to: the malformed timestamp is
silently replaced by the current time. -/
def exTxBadTs : ParsedTransaction :=
  { transaction_id := "tx-001", correlation_id := "corr-001",
    timestamp := exNow, transaction_type := "payment", channel := "web",
    amount := 5, currency := "USD", merchant_id := "m-1",
    customer_id := "cu-1", status := .success, metadata := [] }

/-- C6 counterexample: the claim says a present-but-malformed timestamp makes
parsing fail (never substituting the current time).  On the code, a payload
whose `timestamp` field is the unparseable string "not-a-date" parses
successfully and the transaction's timestamp is `utcnow()`. -/
theorem C6_counterexample :
    (parseAndValidate exNow (some exPayloadBadTs)).success = true ∧
    (parseAndValidate exNow (some exPayloadBadTs)).transaction.map
      (fun tx => tx.timestamp) = some exNow ∧
    pyParseTimestamp "not-a-date" = Option.none :=
  ⟨rfl, rfl, rfl⟩

/-- C6 as amended: when the timestamp field is present and a parseable
ISO-8601 string (`Z` normalized to +00:00), the parsed value is used; a
present-but-malformed string is silently replaced by the current time (there
is no deployment-config opt-in and parsing never fails on the timestamp); a
datetime value is kept; an absent field also falls back to the current
time. -/
theorem C6_amended (now : Datetime) (fs : List (String × Json))
    (tx : ParsedTransaction) (h : createTransaction now (.obj fs) = some tx) :
    (∀ s dt, jlookup fs "timestamp" = some (.str s) →
      pyParseTimestamp s = some dt → tx.timestamp = dt) ∧
    (∀ s, jlookup fs "timestamp" = some (.str s) →
      pyParseTimestamp s = Option.none → tx.timestamp = now) ∧
    (∀ d, jlookup fs "timestamp" = some (.dt d) → tx.timestamp = d) ∧
    (jlookup fs "timestamp" = Option.none → tx.timestamp = now) := by
  have ht := createTransaction_timestamp now fs tx h
  refine ⟨?_, ?_, ?_, ?_⟩
  · intro s dt hs hp
    rw [ht]
    simp only [createTimestamp, hs, hp]
  · intro s hs hp
    rw [ht]
    simp only [createTimestamp, hs, hp]
  · intro d hd
    rw [ht]
    simp only [createTimestamp, hd]
  · intro hn
    rw [ht]
    simp only [createTimestamp, hn]

/-- Witness for `C6_amended` at the malformed-timestamp payload. -/
theorem C6_amended_witness : exTxBadTs.timestamp = exNow :=
  (C6_amended exNow exBadTsFields exTxBadTs rfl).2.1 "not-a-date" rfl rfl

/-! ## Claim C4 — archive round trip -/

def exEvent : RawEvent :=
  ⟨"tx-1", ⟨7⟩, [], ⟨2025, 1, 1, 12, 0, 0, 0, Option.none⟩⟩

/-- C4 counterexample: the claim says `deserialize(serialize(list)) == list`
with field-by-field equality including the event payload.  Serialization
projects the payload onto the fixed column schema and deserialization
reconstructs a payload with exactly those columns, so an event with an empty
payload comes back with a 17-key payload — not equal to the original. -/
theorem C4_counterexample :
    (serializeEvents [exEvent]).map deserializeEvents ≠ some [exEvent] :=
  fun h => absurd
    (congrArg (Option.map fun evs => evs.map fun e => e.event_payload.length) h)
    (by decide)

theorem serializeEvent_fields (e : RawEvent) (r : ArrowRow)
    (h : serializeEvent e = some r) :
    r.transaction_id = e.transaction_id ∧ r.correlation_id = e.correlation_id ∧
      r.created_at = e.created_at := by
  unfold serializeEvent at h
  dsimp only at h
  split at h
  · cases h
    exact ⟨rfl, rfl, rfl⟩
  · cases h

theorem deserialize_mapM_fields (events : List RawEvent) (rows : List ArrowRow)
    (h : events.mapM serializeEvent = some rows) :
    (deserializeEvents rows).map
        (fun e => (e.transaction_id, e.correlation_id, e.created_at)) =
      events.map (fun e => (e.transaction_id, e.correlation_id, e.created_at)) := by
  induction events generalizing rows with
  | nil =>
    simp only [List.mapM_nil, pure, Option.some.injEq] at h
    subst h
    rfl
  | cons e es ih =>
    rw [List.mapM_cons] at h
    rcases Option.bind_eq_some.mp h with ⟨r, hr, h2⟩
    rcases Option.bind_eq_some.mp h2 with ⟨rs, hrs, h3⟩
    simp only [pure, Option.some.injEq] at h3
    subst h3
    obtain ⟨h1, h2', h3'⟩ := serializeEvent_fields e r hr
    simp only [deserializeEvents, List.map_cons, List.cons.injEq] at ih ⊢
    constructor
    · show (r.transaction_id, r.correlation_id, r.created_at) = _
      rw [h1, h2', h3']
    · exact ih rs hrs

/-- C4 as amended: for any non-empty list of RawEvents that serializes
successfully, deserializing the serialization preserves transaction id,
correlation id and created-at field-by-field for every event; the event
payload, however, is only preserved up to projection onto the fixed column
schema (unknown keys are dropped, absent schema keys materialize with
defaults), so payload equality fails in general. -/
theorem C4_amended (events : List RawEvent) (rows : List ArrowRow)
    (hne : events ≠ []) (h : serializeEvents events = some rows) :
    (deserializeEvents rows).map
        (fun e => (e.transaction_id, e.correlation_id, e.created_at)) =
      events.map (fun e => (e.transaction_id, e.correlation_id, e.created_at)) := by
  unfold serializeEvents at h
  split at h
  · cases h
  · exact deserialize_mapM_fields events rows h

/-- The row `exEvent` serializes to. -/
def exRow : ArrowRow :=
  { transaction_id := "tx-1", correlation_id := ⟨7⟩,
    transaction_timestamp := some ⟨2025, 1, 1, 12, 0, 0, 0, Option.none⟩,
    ingestion_timestamp := Option.none, processing_timestamp := Option.none,
    amount := 0, currency := some "", payment_method := some "",
    payment_status := some "", customer_id := Option.none,
    customer_email := Option.none, customer_country := Option.none,
    merchant_id := Option.none, merchant_name := Option.none,
    merchant_category := Option.none, transaction_type := Option.none,
    channel := Option.none, device_type := Option.none,
    metadata := Option.none, created_at := ⟨2025, 1, 1, 12, 0, 0, 0, Option.none⟩,
    updated_at := Option.none }

/-- Witness for `C4_amended`. -/
theorem C4_amended_witness :
    (deserializeEvents [exRow]).map
        (fun e => (e.transaction_id, e.correlation_id, e.created_at)) =
      [exEvent].map (fun e => (e.transaction_id, e.correlation_id, e.created_at)) :=
  C4_amended [exEvent] [exRow] (by simp) rfl

/-! ## Claim C8 — parse round trip

A decoded JSON document never contains `datetime` objects; `noDt` captures
that (the `.dt` constructor only enters payloads through archive
deserialization). -/

mutual

def Json.noDt : Json → Bool
  | .dt _ => false
  | .arr xs => noDtList xs
  | .obj fs => noDtFields fs
  | _ => true

def noDtList : List Json → Bool
  | [] => true
  | j :: rest => j.noDt && noDtList rest

def noDtFields : List (String × Json) → Bool
  | [] => true
  | (_, j) :: rest => j.noDt && noDtFields rest

end

theorem jlookup_noDtFields (fs : List (String × Json)) (k : String) (v : Json)
    (h : noDtFields fs = true) (hl : jlookup fs k = some v) : v.noDt = true := by
  induction fs with
  | nil => cases hl
  | cons p rest ih =>
    obtain ⟨s, j⟩ := p
    unfold noDtFields at h
    rw [Bool.and_eq_true] at h
    unfold jlookup at hl
    rw [List.find?_cons] at hl
    cases hk : ((s, j).1 == k)
    · rw [hk] at hl
      exact ih h.2 hl
    · rw [hk] at hl
      have h2 : (some j : Option Json) = some v := hl
      exact Option.some.inj h2 ▸ h.1

theorem isStr_getD (o : Option Json) (h : (o.getD .null).isStr = true) :
    ∃ s, o = some (.str s) := by
  cases o with
  | none => simp [Json.isStr] at h
  | some v => cases v <;> simp [Json.isStr] at h ⊢

set_option maxHeartbeats 1000000 in
/-- The facts recorded by a successful run of the validation chain. -/
theorem validateObj_none_elim (fs : List (String × Json))
    (h : validateObj fs = Option.none) :
    ((jlookup fs "transaction_id").getD .null).isStr = true ∧
    ((jlookup fs "correlation_id").getD .null).isStr = true ∧
    ((jlookup fs "amount").getD .null).isNumLike = true ∧
    ¬(pyFloatNum ((jlookup fs "amount").getD .null) ≤ 0) ∧
    ((jlookup fs "currency").getD .null).isStr = true ∧
    ((jlookup fs "currency").getD .null).asStr.length = 3 ∧
    ((jlookup fs "merchant_id").getD .null).isStr = true ∧
    ((jlookup fs "customer_id").getD .null).isStr = true ∧
    ((jlookup fs "status").getD .null).isStr = true ∧
    (statusOfString (pyLower ((jlookup fs "status").getD .null).asStr)).isSome
      = true := by
  unfold validateObj at h
  split at h
  · cases h
  · dsimp only at h
    split_ifs at h with h1 h2 h3 h4 h5 h6 h7 h8 h9 h10
    all_goals first
      | exact Option.noConfusion h
      | refine ⟨h1, h2, h3, h4, h5, not_not.mp h6, h7, h8, h9, ?_⟩
    cases hopt : statusOfString (pyLower ((jlookup fs "status").getD .null).asStr)
    · exact absurd (by simp [hopt]) h10
    · simp [hopt]

theorem validateAgainstSchema_none_elim (data : Json)
    (h : validateAgainstSchema data = Option.none) :
    ∃ fs, data = .obj fs ∧ validateObj fs = Option.none := by
  cases data with
  | obj fs => exact ⟨fs, rfl, h⟩
  | arr xs =>
    simp only [validateAgainstSchema] at h
    split at h <;> cases h
  | str s =>
    simp only [validateAgainstSchema] at h
    split at h <;> cases h
  | num q => simp [validateAgainstSchema] at h
  | bool b => simp [validateAgainstSchema] at h
  | null => simp [validateAgainstSchema] at h
  | dt d => simp [validateAgainstSchema] at h

theorem statusOfString_value (st : TransactionStatus) :
    statusOfString (pyLower st.value) = some st := by
  cases st <;> rfl

/-- On a fully validated object, `_create_transaction` builds the
transaction from the looked-up fields. -/
theorem createTransaction_validated (now : Datetime) (fs : List (String × Json))
    (tid cid cur mid cuid s : String) (v : Json)
    (htid : jlookup fs "transaction_id" = some (.str tid))
    (hcid : jlookup fs "correlation_id" = some (.str cid))
    (hcur : jlookup fs "currency" = some (.str cur))
    (hmid : jlookup fs "merchant_id" = some (.str mid))
    (hcuid : jlookup fs "customer_id" = some (.str cuid))
    (hamt : jlookup fs "amount" = some v) (hnum : v.isNumLike = true)
    (hst : jlookup fs "status" = some (.str s)) :
    createTransaction now (.obj fs) = some
      { transaction_id := tid
        correlation_id := cid
        timestamp := createTimestamp now fs
        transaction_type := ((jlookup fs "transaction_type").getD (.str "payment")).pyStr
        channel := ((jlookup fs "channel").getD (.str "unknown")).pyStr
        amount := pyFloatNum v
        currency := cur
        merchant_id := mid
        customer_id := cuid
        status := (statusOfString (pyLower s)).getD .error
        metadata := match jlookup fs "metadata" with
                    | some (.obj m) => m
                    | _ => [] } := by
  simp only [createTransaction, hst, hamt, hnum, htid, hcid, hcur, hmid, hcuid,
    Json.pyStr, if_true]

theorem createTimestamp_valid (now : Datetime) (fs : List (String × Json))
    (hnow : now.valid = true) (hnodt : noDtFields fs = true) :
    (createTimestamp now fs).valid = true := by
  unfold createTimestamp
  split
  · split
    · rename_i dt hdt
      exact pyParseTimestamp_valid _ _ hdt
    · exact hnow
  · rename_i d hd
    exact absurd (jlookup_noDtFields fs "timestamp" (.dt d) hnodt hd)
      (by simp [Json.noDt])
  · exact hnow

set_option maxHeartbeats 1000000 in
/-- Parsing the `to_dict()` rendering of a well-formed transaction gives the
transaction back. -/
theorem parse_toDict (now : Datetime) (tx : ParsedTransaction)
    (hamt : 0 < tx.amount) (hcur : tx.currency.length = 3)
    (hts : tx.timestamp.valid = true) :
    parseAndValidate now (some tx.toDict) = .successResult tx := by
  obtain ⟨tid, cid, ts, tt, ch, amt, cur, mer, cus, st, md⟩ := tx
  simp only [ParsedTransaction.toDict]
  have hv : validateAgainstSchema (Json.obj [
      ("transaction_id", .str tid), ("correlation_id", .str cid),
      ("timestamp", .str ts.isoformat), ("transaction_type", .str tt),
      ("channel", .str ch), ("amount", .num amt), ("currency", .str cur),
      ("merchant_id", .str mer), ("customer_id", .str cus),
      ("status", .str st.value), ("metadata", .obj md)]) = Option.none := by
    show (if amt ≤ 0 then some amountRangeError
          else if cur.length ≠ 3 then some currencyFormatError
          else if (statusOfString (pyLower st.value)).isNone = true
          then some statusValueError
          else Option.none) = Option.none
    rw [if_neg (not_le.mpr hamt), if_neg (fun hne => hne hcur),
      statusOfString_value, if_neg (by simp)]
  have hts2 : createTimestamp now [
      ("transaction_id", Json.str tid), ("correlation_id", Json.str cid),
      ("timestamp", Json.str ts.isoformat), ("transaction_type", Json.str tt),
      ("channel", Json.str ch), ("amount", Json.num amt),
      ("currency", Json.str cur), ("merchant_id", Json.str mer),
      ("customer_id", Json.str cus), ("status", Json.str st.value),
      ("metadata", Json.obj md)] = ts := by
    have hstep : createTimestamp now [
        ("transaction_id", Json.str tid), ("correlation_id", Json.str cid),
        ("timestamp", Json.str ts.isoformat), ("transaction_type", Json.str tt),
        ("channel", Json.str ch), ("amount", Json.num amt),
        ("currency", Json.str cur), ("merchant_id", Json.str mer),
        ("customer_id", Json.str cus), ("status", Json.str st.value),
        ("metadata", Json.obj md)] =
        (match pyParseTimestamp ts.isoformat with
         | some dt => dt
         | none => now) := rfl
    rw [hstep, pyParseTimestamp_isoformat ts hts]
  have hc : createTransaction now (Json.obj [
      ("transaction_id", .str tid), ("correlation_id", .str cid),
      ("timestamp", .str ts.isoformat), ("transaction_type", .str tt),
      ("channel", .str ch), ("amount", .num amt), ("currency", .str cur),
      ("merchant_id", .str mer), ("customer_id", .str cus),
      ("status", .str st.value), ("metadata", .obj md)]) =
      some ⟨tid, cid, ts, tt, ch, amt, cur, mer, cus, st, md⟩ := by
    rw [createTransaction_validated now [
        ("transaction_id", Json.str tid), ("correlation_id", Json.str cid),
        ("timestamp", Json.str ts.isoformat), ("transaction_type", Json.str tt),
        ("channel", Json.str ch), ("amount", Json.num amt),
        ("currency", Json.str cur), ("merchant_id", Json.str mer),
        ("customer_id", Json.str cus), ("status", Json.str st.value),
        ("metadata", Json.obj md)] tid cid cur mer cus st.value
      (.num amt) rfl rfl rfl rfl rfl rfl rfl rfl]
    rw [hts2, statusOfString_value]
    rfl
  simp only [parseAndValidate, hv, hc]

/-- C8: for every current time valid as a datetime, every payload free of
in-memory `datetime` objects (a decoded JSON document always is), and
conforming to the schema (`_validate_against_schema` returns no error),
parsing succeeds with some transaction `tx`, and parsing `tx.to_dict()`
again succeeds with exactly the same transaction. -/
theorem C8_parse_roundtrip (now : Datetime) (data : Json)
    (hnow : now.valid = true) (hjson : data.noDt = true)
    (hval : validateAgainstSchema data = Option.none) :
    ∃ tx, parseAndValidate now (some data) = .successResult tx ∧
      parseAndValidate now (some tx.toDict) = .successResult tx := by
  obtain ⟨fs, rfl, hobj⟩ := validateAgainstSchema_none_elim data hval
  obtain ⟨h1, h2, h3, h4, h5, h6, h7, h8, h9, h10⟩ := validateObj_none_elim fs hobj
  obtain ⟨tid, htid⟩ := isStr_getD _ h1
  obtain ⟨cid, hcid⟩ := isStr_getD _ h2
  obtain ⟨cur, hcur⟩ := isStr_getD _ h5
  obtain ⟨mid, hmid⟩ := isStr_getD _ h7
  obtain ⟨cuid, hcuid⟩ := isStr_getD _ h8
  obtain ⟨sst, hsst⟩ := isStr_getD _ h9
  have hex : ∃ v, jlookup fs "amount" = some v ∧ v.isNumLike = true := by
    cases hx : jlookup fs "amount" with
    | none => rw [hx] at h3; simp [Json.isNumLike] at h3
    | some v => exact ⟨v, rfl, by rw [hx] at h3; simpa using h3⟩
  obtain ⟨v, hv, hnum⟩ := hex
  have hct := createTransaction_validated now fs tid cid cur mid cuid sst v
    htid hcid hcur hmid hcuid hv hnum hsst
  refine ⟨{ transaction_id := tid
            correlation_id := cid
            timestamp := createTimestamp now fs
            transaction_type := ((jlookup fs "transaction_type").getD (.str "payment")).pyStr
            channel := ((jlookup fs "channel").getD (.str "unknown")).pyStr
            amount := pyFloatNum v
            currency := cur
            merchant_id := mid
            customer_id := cuid
            status := (statusOfString (pyLower sst)).getD .error
            metadata := match jlookup fs "metadata" with
                        | some (.obj m) => m
                        | _ => [] },
    by simp only [parseAndValidate, hval, hct], ?_⟩
  refine parse_toDict now _ ?_ ?_ ?_
  · rw [hv] at h4
    exact not_le.mp (by simpa using h4)
  · rw [hcur] at h6
    simpa using h6
  · refine createTimestamp_valid now fs hnow ?_
    simp only [Json.noDt] at hjson
    exact hjson

/-- Witness for `C8_parse_roundtrip`. -/
theorem C8_parse_roundtrip_witness :
    exNow.valid = true ∧ exPayload.noDt = true ∧
    validateAgainstSchema exPayload = Option.none ∧
    ∃ tx, parseAndValidate exNow (some exPayload) = .successResult tx ∧
      parseAndValidate exNow (some tx.toDict) = .successResult tx :=
  ⟨by decide, by decide, rfl,
   C8_parse_roundtrip exNow exPayload (by decide) (by decide) rfl⟩

end PaymentsIngestion
